import Mathlib

/-!
Verification development for the Epistemic Audit Engine core
(claim verification, hallucination attribution, risk aggregation).

The Python source is shallowly embedded: dictionaries become structures
with optional fields (`Option` models an absent or `None`-valued key),
float arithmetic is modelled exactly over `ℚ`, and calls into external
collaborators (the NLI model, the Wikidata HTTP retriever, the evidence
detector invoked as a black box) are threaded through an explicit
`Collab` record of oracle functions, so every theorem quantifies over
their behaviour.
-/

namespace EpistemicAudit

/-! ## Numeric helpers: Python `round` (banker's rounding) and clamping -/

/-- Round a rational to the nearest integer, ties to even — the rounding
Python's builtin `round` uses. -/
def roundHalfEven (q : ℚ) : ℤ :=
  let f : ℤ := ⌊q⌋
  let r : ℚ := q - (f : ℚ)
  if r < 1/2 then f
  else if r > 1/2 then f + 1
  else if f % 2 = 0 then f else f + 1

/-- Python `round(q, n)` on exact rationals. -/
def pyRound (q : ℚ) (n : ℕ) : ℚ :=
  (roundHalfEven (q * (10 : ℚ) ^ n) : ℚ) / (10 : ℚ) ^ n

/-- Python `max(0.0, min(1.0, x))`. -/
def clamp01 (q : ℚ) : ℚ := max 0 (min 1 q)

/-- Python `f"{q:.2f}"` for a nonnegative rational (used in one reasoning
string of the verifier). -/
def formatQ2 (q : ℚ) : String :=
  let n : ℤ := roundHalfEven (q * 100)
  let whole : ℤ := n / 100
  let frac : ℤ := n % 100
  toString whole ++ "." ++ (if frac < 10 then "0" ++ toString frac else toString frac)

/-! ## String helpers mirroring the regular expressions of the source -/

/-- Python `str.lower` (character-wise; the library's `String.toLower` is
opaque to kernel reduction, so it is spelled out on the character list). -/
def strToLower (s : String) : String := String.mk (s.toList.map Char.toLower)

/-- Python `str.strip`: drop leading and trailing whitespace. -/
def strTrim (s : String) : String :=
  String.mk (((s.toList.dropWhile Char.isWhitespace).reverse.dropWhile
    Char.isWhitespace).reverse)

/-- Python regex word character `\w` (ASCII fragment: the inputs handled
by the engine are ASCII). -/
def isWordChar (c : Char) : Bool := c.isAlphanum || c = '_'

/-- Maximal runs of word characters, i.e. the `\w+` tokens of a string. -/
def wordTokens (s : String) : List String :=
  ((s.toList.splitOnP (fun c => !isWordChar c)).map (fun l => String.mk l)).filter (· ≠ "")

/-- Embedding of `_extract_years`: `re.findall(r"\b(\d{4})\b", text)`,
i.e. the word tokens that are exactly four digits. -/
def extractYears (s : String) : List String :=
  (wordTokens s).filter (fun t => t.length = 4 && t.toList.all Char.isDigit)

/-- Whether `needle` occurs at the start of `hay` (on character lists). -/
def charsStartWith : List Char → List Char → Bool
  | [], _ => true
  | _ :: _, [] => false
  | a :: as, b :: bs => a = b && charsStartWith as bs

/-- Whether `needle` occurs contiguously anywhere in `hay`. -/
def charsContain (needle : List Char) : List Char → Bool
  | [] => needle.isEmpty
  | c :: rest => charsStartWith needle (c :: rest) || charsContain needle rest

/-- Python's substring test `needle in hay`. -/
def strContains (hay needle : String) : Bool := charsContain needle.toList hay.toList

/-- Python `str.startswith`. -/
def strStartsWith (s p : String) : Bool := charsStartWith p.toList s.toList

/-- Embedding of `_normalize_text`: lowercase, drop everything outside
`[a-z0-9\s]`, strip. -/
def normalizeText (t : String) : String :=
  strTrim <|
  (String.mk ((strToLower t).toList.filter
    (fun c => ('a' ≤ c && c ≤ 'z') || c.isDigit || c.isWhitespace)))

/-- First `\+(\d{4})` match in a character list (the ISO-prefix fallback
of `_temporal_compatible`). -/
def plusYear : List Char → Option String
  | [] => none
  | c :: rest =>
    if c = '+' then
      match rest with
      | a :: b :: d :: e :: _ =>
        if a.isDigit && b.isDigit && d.isDigit && e.isDigit then some (String.mk [a, b, d, e])
        else plusYear rest
      | _ => plusYear rest
    else plusYear rest

/-- Whether the pattern `\b\d{4}-\d{2}-\d{2}\b` matches at the head of the
list, given that the preceding character (if any) was not a word character. -/
def dashDateAt : List Char → Bool
  | a :: b :: c :: d :: '-' :: e :: f :: '-' :: g :: h :: rest =>
    a.isDigit && b.isDigit && c.isDigit && d.isDigit && e.isDigit && f.isDigit &&
    g.isDigit && h.isDigit &&
    (match rest with | [] => true | x :: _ => !isWordChar x)
  | _ => false

/-- Scan for `\b\d{4}-\d{2}-\d{2}\b` anywhere, tracking the previous character
for the leading word boundary. -/
def scanDashDate (prev : Option Char) : List Char → Bool
  | [] => false
  | c :: rest =>
    ((match prev with | none => true | some p => !isWordChar p) && dashDateAt (c :: rest))
      || scanDashDate (some c) rest

/-- Whether the pattern `[+\-]\d{4}-\d{2}-\d{2}` matches at the head of the list. -/
def signedDateAt : List Char → Bool
  | s :: a :: b :: c :: d :: '-' :: e :: f :: '-' :: g :: h :: _ =>
    (s = '+' || s = '-') && a.isDigit && b.isDigit && c.isDigit && d.isDigit &&
    e.isDigit && f.isDigit && g.isDigit && h.isDigit
  | _ => false

/-- Scan for `[+\-]\d{4}-\d{2}-\d{2}` anywhere. -/
def scanSignedDate : List Char → Bool
  | [] => false
  | c :: rest => signedDateAt (c :: rest) || scanSignedDate rest

/-- Insertion of a string into a sorted list (Python `sorted` on the small
facet sets). -/
def insertSorted (x : String) : List String → List String
  | [] => [x]
  | y :: ys => if x ≤ y then x :: y :: ys else y :: insertSorted x ys

/-- Python `sorted` for lists of strings. -/
def sortStrings (l : List String) : List String := l.foldr insertSorted []

/-! ## config/core_config.py constants -/

def ALIGN_THRESH_SIM_HIGH : ℚ := 0.85
def ALIGN_THRESH_SIM_MED : ℚ := 0.75
def ALIGN_THRESH_SIM_ULTRA : ℚ := 0.92
def ALIGN_THRESH_SIM_WEAK : ℚ := 0.65
def ALIGN_THRESH_ENT_HIGH : ℚ := 0.8
def ALIGN_THRESH_ENT_MED : ℚ := 0.5
def ALIGN_THRESH_CON_HIGH : ℚ := 0.75
def HALLUCINATION_TYPE_CONTRADICTION : String := "TEXTUAL_CONTRADICTION"
def CONFIDENCE_CAP_STRUCTURED : ℚ := 0.85
def CONFIDENCE_CAP_PRIMARY : ℚ := 0.95

/-! ## Data model -/

/-- Tri-state alignment record of an `EvidenceItem`; `none` models an absent
or `None` field (Python `dict.get` returns `None` for both). -/
structure Alignment where
  subject_match : Option Bool := none
  predicate_match : Option Bool := none
  object_match : Option Bool := none
  temporal_match : Option Bool := none
  deriving Repr, DecidableEq

/-- Evidence item as consumed by the verifier. String fields default to the
`dict.get` defaults used at their read sites. -/
structure EvidenceItem where
  source : String := ""
  property : String := ""
  value : String := ""
  score : ℚ := 0
  sentence : String := ""
  snippet : String := ""
  evidence_id : Option String := none
  alignment : Alignment := {}
  modality : String := "TEXTUAL"
  entity_id : String := ""
  authority : String := "SEC"
  document_type : String := "Filing"
  filing_year : String := ""
  support_type : Option String := none
  source_type : Option String := none
  deriving Repr, DecidableEq

instance : Inhabited EvidenceItem := ⟨{}⟩

/-- NLI probability triple. -/
structure NLIResult where
  entailment : ℚ := 0
  contradiction : ℚ := 0
  neutral : ℚ := 0
  deriving Repr, DecidableEq

/-- Result of `AlignmentScorer.score_alignment`. -/
structure AlignmentResult where
  signal : String
  score : ℚ
  components_similarity : ℚ
  components_nli : NLIResult
  deriving Repr, DecidableEq

/-- Hallucination flag. -/
structure HFlag where
  hallucination_type : String := ""
  severity : String := ""
  score : ℚ := 0
  reason : String := ""
  evidence_ref : Option String := none
  deriving Repr, DecidableEq

instance : Inhabited HFlag := ⟨{}⟩

/-- Structured (Wikidata) authoritative-contradiction record produced by
`_evaluate_structured_contradiction`. -/
structure Contradiction where
  reasoning : String := ""
  confidence : ℚ := 0
  property : String := ""
  evidence_id : Option String := none
  deriving Repr, DecidableEq

instance : Inhabited Contradiction := ⟨{}⟩

/-- Linked entity of a claim. -/
structure Entity where
  entity_id : String := ""
  entity_type : String := ""
  canonical_name : String := ""
  text : String := ""
  resolution_status : String := ""
  deriving Repr, DecidableEq

/-- Evidence mapping of a claim. The upstream retriever builds the dict with
insertion order primary_document, wikidata, wikipedia, grokipedia, which is
the iteration order of the verifier's per-source scan. -/
structure Evidence where
  primary_document : List EvidenceItem := []
  wikidata : List EvidenceItem := []
  wikipedia : List EvidenceItem := []
  grokipedia : List EvidenceItem := []
  deriving Repr, DecidableEq

/-- Verification result written by the verifier. The purely presentational
`evidence_sufficiency` / `evidence_summary` views (derived, no verdict
effect) are not modelled. -/
structure Verification where
  verdict : String := ""
  confidence : ℚ := 0
  reasoning : String := ""
  used_evidence_ids : List String := []
  contradicted_by : List String := []
  facet_status : List (String × String) := []
  supported_facets : List String := []
  unsupported_facets : List String := []
  contradicted_facets : List String := []
  support_completeness : String := "unknown"
  authoritative_contradictions : List Contradiction := []
  deriving Repr, DecidableEq

instance : Inhabited Verification := ⟨{}⟩

/-- Claim record. `epistemic_status` defaults to `ASSERTED` as at its read
site (`claim.get("epistemic_status", "ASSERTED")`). -/
structure Claim where
  claim_id : String := ""
  claim_text : String := ""
  subject : String := ""
  predicate : String := ""
  object : String := ""
  claim_type : String := ""
  epistemic_status : String := "ASSERTED"
  subject_entity : Entity := {}
  object_entity : Entity := {}
  evidence : Evidence := {}
  verification : Option Verification := none
  hallucinations : List HFlag := []
  deriving Repr, DecidableEq

/-- Final verdict string of a claim (empty when no verification present). -/
def Claim.finalVerdict (c : Claim) : String :=
  match c.verification with
  | some v => v.verdict
  | none => ""

/-! ## alignment_scorer.py -/

/-- Embedding of `AlignmentScorer.score_alignment`. The claim text parameter
is part of the signature but unused by the source body. -/
def scoreAlignment (_claim_text : String) (evidence_item : EvidenceItem)
    (nli_result : NLIResult) : AlignmentResult :=
  let sim_score := evidence_item.score
  let entailment := nli_result.entailment
  let contradiction := nli_result.contradiction
  if (sim_score ≥ ALIGN_THRESH_SIM_HIGH ∧ entailment > ALIGN_THRESH_ENT_MED) ∨
     (sim_score ≥ ALIGN_THRESH_SIM_MED ∧ entailment > ALIGN_THRESH_ENT_HIGH) ∨
     (sim_score ≥ ALIGN_THRESH_SIM_ULTRA) then
    { signal := "SUPPORT", score := (sim_score + entailment) / 2,
      components_similarity := sim_score, components_nli := nli_result }
  else if contradiction > ALIGN_THRESH_CON_HIGH then
    { signal := "CONTRADICTION", score := contradiction,
      components_similarity := sim_score, components_nli := nli_result }
  else if sim_score > ALIGN_THRESH_SIM_WEAK then
    { signal := "WEAK_SUPPORT", score := sim_score,
      components_similarity := sim_score, components_nli := nli_result }
  else
    { signal := "NEUTRAL", score := 0,
      components_similarity := sim_score, components_nli := nli_result }

/-! ## hallucination_attributor.py (backend/core) -/

/-- Embedding of `HallucinationAttributor.attribute` (the source name is a
Lean keyword, hence `attributeFlag`). Note the severity is hardcoded
`CRITICAL` at the construction site. -/
def attributeFlag (alignment_result : AlignmentResult) (evidence_item : EvidenceItem) :
    Option HFlag :=
  if alignment_result.signal = "CONTRADICTION" then
    some { hallucination_type := HALLUCINATION_TYPE_CONTRADICTION,
           severity := "CRITICAL",
           score := alignment_result.score,
           reason := "Directly contradicted by evidence: \"" ++
             evidence_item.snippet.take 100 ++ "...\"",
           evidence_ref := evidence_item.evidence_id }
  else none

/-! ## hallucination_detector.py severity tables -/

/-- `HallucinationDetector.CRITICAL_HALLUCINATIONS`. -/
def CRITICAL_HALLUCINATIONS : List String :=
  ["ENTITY_ROLE_CONFLICT", "TEMPORAL_FABRICATION", "COURT_AUTHORITY_MISATTRIBUTION",
   "IMPOSSIBLE_DOSAGE", "SCOPE_OVERGENERALIZATION"]

/-- `HallucinationDetector.NON_CRITICAL_HALLUCINATIONS`. -/
def NON_CRITICAL_HALLUCINATIONS : List String :=
  ["UNSUPPORTED_SPECIFICITY", "AUTHORITY_BLEED"]

/-- Embedding of `HallucinationDetector._enrich`: severity from the static
critical-membership table, `NON_CRITICAL` otherwise. -/
def enrich (h : HFlag) : HFlag :=
  if CRITICAL_HALLUCINATIONS.contains h.hallucination_type then
    { h with severity := "CRITICAL" }
  else
    { h with severity := "NON_CRITICAL" }

/-! ## risk_aggregator.py -/

/-- Risk summary counts. -/
structure RiskSummary where
  total_asserted_claims : ℕ
  epistemic_claims : ℕ
  refuted : ℕ
  insufficient : ℕ
  uncertain : ℕ
  supported : ℕ
  partially_supported : ℕ
  deriving Repr, DecidableEq

/-- Document-level risk report. -/
structure RiskReport where
  overall_risk : String
  hallucination_score : ℚ
  summary : RiskSummary
  deriving Repr, DecidableEq

/-- Embedding of `RiskAggregator.get_risk_label`. -/
def getRiskLabel (score : ℚ) : String :=
  if score ≤ 0.20 then "LOW"
  else if score ≤ 0.50 then "MEDIUM"
  else "HIGH"

/-- Verdict string of a claim for the aggregator's reads
(`c.get("verification", {}).get("verdict")`, with `none` never matching). -/
def riskVerdictIs (s : String) (c : Claim) : Bool :=
  match c.verification with
  | some v => v.verdict = s
  | none => false

/-- Canonical verdict set of `calculate_risk`. -/
def validVerdicts : List String :=
  ["REFUTED", "INSUFFICIENT_EVIDENCE", "UNCERTAIN", "PARTIALLY_SUPPORTED",
   "SUPPORTED", "SUPPORTED_WEAK"]

/-- Embedding of `RiskAggregator.calculate_risk` (v1.3.8 canonical model).
The flag list parameter is part of the signature but unused by the body. -/
def calculateRisk (_flags : List HFlag) (claims : List Claim) : RiskReport :=
  let epistemic_claims := claims.filter (fun c =>
    validVerdicts.any (fun s => riskVerdictIs s c))
  let T := epistemic_claims.length
  let safe_T := max 1 T
  let R_count := epistemic_claims.countP (riskVerdictIs "REFUTED")
  let I_count := epistemic_claims.countP (riskVerdictIs "INSUFFICIENT_EVIDENCE")
  let partial_count := epistemic_claims.countP (riskVerdictIs "PARTIALLY_SUPPORTED")
  let U_count := epistemic_claims.countP (riskVerdictIs "UNCERTAIN") + partial_count
  let S_count := epistemic_claims.countP (fun c =>
    riskVerdictIs "SUPPORTED" c || riskVerdictIs "SUPPORTED_WEAK" c)
  let r : ℚ := (R_count : ℚ) / (safe_T : ℚ)
  let i : ℚ := (I_count : ℚ) / (safe_T : ℚ)
  let u : ℚ := (U_count : ℚ) / (safe_T : ℚ)
  let raw_score : ℚ := 1.0 * r + 0.6 * i + 0.3 * u
  let raw_score := if T < 5 then raw_score * ((T : ℚ) / 5) else raw_score
  let hallucination_score := pyRound (clamp01 raw_score) 3
  { overall_risk := getRiskLabel hallucination_score,
    hallucination_score := hallucination_score,
    summary := { total_asserted_claims := claims.length,
                 epistemic_claims := T,
                 refuted := R_count,
                 insufficient := I_count,
                 uncertain := U_count,
                 supported := S_count,
                 partially_supported := partial_count } }

/-! ## claim_verifier.py: static tables of `ClaimVerifier.__init__` -/

/-- `CANONICAL_PRED_MAP`, in dict insertion order (the fallback scan takes
the first key that occurs in the predicate). -/
def CANONICAL_PRED_MAP : List (String × String) :=
  [("founded", "P571"), ("born", "P569"), ("died", "P570"), ("released", "P577"),
   ("established", "P571"), ("incepted", "P571"), ("created", "P571")]

/-- `CANONICAL_BIOGRAPHICAL_PROPS`. -/
def CANONICAL_BIOGRAPHICAL_PROPS : List String :=
  ["P569", "P570", "P19", "P20", "P27", "P571", "P159"]

/-- `CANONICAL_LOCATION_PRED_MAP`, in dict insertion order. -/
def CANONICAL_LOCATION_PRED_MAP : List (String × String) :=
  [("born in", "P19"), ("died in", "P20"), ("from", "P27"), ("citizen of", "P27"),
   ("nationality", "P27"), ("headquartered", "P159"), ("based in", "P159")]

/-- `PREDICATE_PROPERTY_HINTS`. -/
def PREDICATE_PROPERTY_HINTS : List (String × List String) :=
  [("headquarters", ["P159", "P131", "P276", "P17"]),
   ("located in", ["P131", "P276", "P17"]),
   ("country", ["P17", "P27"]),
   ("ceo", ["P169", "P488", "P39"]),
   ("founder", ["P112"]),
   ("parent organization", ["P749", "P127", "P355", "P361"]),
   ("subsidiary", ["P355", "P749", "P127", "P361"]),
   ("acquired", ["P127", "P749", "P355", "P361"]),
   ("founded", ["P571", "P112"]),
   ("inception", ["P571"]),
   ("born", ["P569", "P19"]),
   ("died", ["P570", "P20"])]

/-- `PROP_LABELS`. -/
def PROP_LABELS : List (String × String) :=
  [("P159", "headquarters location"), ("P131", "located in administrative territory"),
   ("P276", "location"), ("P17", "country"), ("P169", "chief executive officer"),
   ("P488", "chairperson"), ("P39", "position held"), ("P112", "founder"),
   ("P749", "parent organization"), ("P127", "owned by"), ("P355", "subsidiary"),
   ("P361", "part of"), ("P571", "inception"), ("P569", "date of birth"),
   ("P570", "date of death"), ("P19", "place of birth"), ("P20", "place of death"),
   ("P27", "country of citizenship"), ("P577", "publication date")]

/-- `PROP_LABELS.get(prop, prop)`. -/
def propLabelOf (prop : String) : String :=
  match PROP_LABELS.find? (fun p => p.1 = prop) with
  | some p => p.2
  | none => prop

def TEMPORAL_PROPS : List String := ["P569", "P570", "P571", "P577"]
def LOCATION_PROPS : List String := ["P159", "P276", "P131", "P17"]
def OWNERSHIP_PROPS : List String := ["P127", "P749", "P355", "P361"]
def INCEPTION_KEYWORDS : List String := ["founded", "inception", "established", "created"]
def HQ_KEYWORDS : List String := ["headquartered", "headquarters", "based in", "head office"]
def NATIONALITY_KEYWORDS : List String := ["nationality", "citizen of", "citizenship", "from"]
def NONPROFIT_KEYWORDS : List String :=
  ["non-profit", "nonprofit", "not-for-profit", "not for profit"]
def OWNERSHIP_KEYWORDS : List String :=
  ["acquired", "owned by", "subsidiary", "parent organization", "parent company"]

/-- `FACET_TO_PROPS`, in dict insertion order (used by `_facet_for_property`). -/
def FACET_TO_PROPS : List (String × List String) :=
  [("INCEPTION", ["P571"]),
   ("HQ", ["P159", "P276", "P131", "P17"]),
   ("NATIONALITY", ["P27"]),
   ("OWNERSHIP", ["P127", "P749", "P355", "P361"])]

/-! ## claim_verifier.py: external collaborators

The verifier's instance calls into the NLI engine, the hallucination
detector's evidence-aware pass, the Wikidata HTTP retriever and a UUID
generator. They are modelled as an explicit record of oracle functions, so
every theorem below holds for every behaviour of these collaborators. -/

/-- Result of `WikidataRetriever.get_place_containment`. -/
structure Containment where
  qids : List String := []
  labels : List String := []
  deriving Repr, DecidableEq

/-- Oracle record for the verifier's collaborators. -/
structure Collab where
  /-- `WikidataRetriever.get_place_containment(qid, max_hops)`. -/
  getPlaceContainment : String → ℕ → Containment := fun _ _ => {}
  /-- `WikidataRetriever.get_entity_property_qids(qid, properties)`. -/
  getEntityPropertyQids : String → List String → List String := fun _ _ => []
  /-- `NLIEngine.classify(evidence_sentence, claim_text)`. -/
  nliClassify : String → String → NLIResult := fun _ _ => {}
  /-- `HallucinationDetector.detect(claim, evidence)`. -/
  detect : Claim → Evidence → List HFlag := fun _ _ => []
  /-- `_generate_wikidata_evidence_id` (a deterministic UUID5 digest). -/
  genEvidenceId : EvidenceItem → String := fun _ => ""

/-- Pipeline configuration (`pipeline_config.ablation.disable_nli`). -/
structure Config where
  disable_nli : Bool := false

/-! ## claim_verifier.py: pure helper methods -/

/-- Embedding of `_temporal_compatible` (v1.6 relaxed year-level matching). -/
def temporalCompatible (claim_val ev_val : String) : Bool :=
  if ev_val = "" then false
  else
    let claim_years := extractYears claim_val
    let ev_years := extractYears ev_val
    if claim_years = [] then false
    else
      let ev_years :=
        if ev_years = [] && strStartsWith ev_val "+" then
          match plusYear ev_val.toList with
          | some y => [y]
          | none => []
        else ev_years
      if ev_years = [] then false
      else claim_years.any (fun cy => ev_years.contains cy)

/-- Embedding of `has_temporal_signal`. -/
def hasTemporalSignal (claim : Claim) : Bool :=
  let claim_text := strTrim (claim.claim_text ++ " " ++ claim.object)
  extractYears claim_text ≠ [] ||
    scanDashDate none claim_text.toList ||
    scanSignedDate claim_text.toList

/-- Embedding of `extract_claim_facets`; returns the facet set as a
duplicate-free list in the source's insertion order. -/
def extractClaimFacets (claim : Claim) : List String :=
  let combined := strToLower (claim.predicate ++ " " ++ claim.claim_text ++ " " ++ claim.object)
  (if INCEPTION_KEYWORDS.any (fun k => strContains combined k) then ["INCEPTION"] else []) ++
  (if HQ_KEYWORDS.any (fun k => strContains combined k) then ["HQ"] else []) ++
  (if NATIONALITY_KEYWORDS.any (fun k => strContains combined k) then ["NATIONALITY"] else []) ++
  (if NONPROFIT_KEYWORDS.any (fun k => strContains combined k) then ["NONPROFIT"] else []) ++
  (if OWNERSHIP_KEYWORDS.any (fun k => strContains combined k) then ["OWNERSHIP"] else []) ++
  (if hasTemporalSignal claim then ["TEMPORAL_GENERIC"] else [])

/-- Embedding of `_facet_for_property`. -/
def facetForProperty (prop_id : String) : String :=
  match FACET_TO_PROPS.find? (fun p => p.2.contains prop_id) with
  | some p => p.1
  | none => ""

/-- Embedding of `_facet_label`. -/
def facetLabel (facet : String) : String :=
  if facet = "INCEPTION" then "inception/founding"
  else if facet = "HQ" then "headquarters"
  else if facet = "NONPROFIT" then "non-profit status"
  else if facet = "NATIONALITY" then "nationality"
  else if facet = "OWNERSHIP" then "ownership"
  else if facet = "TEMPORAL_GENERIC" then "temporal detail"
  else strToLower facet

/-- Embedding of `_is_support_facet_compatible`. -/
def isSupportFacetCompatible (asserted_facets : List String) (prop_id : String) : Bool :=
  if asserted_facets = [] then true
  else
    let mapped_facet := facetForProperty prop_id
    if mapped_facet ≠ "" && asserted_facets.contains mapped_facet then true
    else if TEMPORAL_PROPS.contains prop_id && asserted_facets.contains "TEMPORAL_GENERIC" then true
    else false

/-- Embedding of `_is_positive_structured_match` (the claim parameter is in
the source signature but unused by its body). -/
def isPositiveStructuredMatch (prop_id : String) (object_match temporal_match : Option Bool)
    (claim_is_temporal : Bool) : Bool :=
  if TEMPORAL_PROPS.contains prop_id then
    object_match = some true || (temporal_match = some true && claim_is_temporal)
  else object_match = some true

/-- Embedding of `_canonical_override_allowed`. -/
def canonicalOverrideAllowed (claim : Claim) (prop_id : String) : Bool :=
  let facets := extractClaimFacets claim
  if prop_id = "P571" then facets.contains "INCEPTION"
  else if prop_id = "P159" then facets.contains "HQ"
  else if prop_id = "P27" then facets.contains "NATIONALITY"
  else if prop_id = "P569" || prop_id = "P570" || prop_id = "P19" || prop_id = "P20" then
    claim.claim_type = "TEMPORAL" || hasTemporalSignal claim
  else false

/-- Embedding of `_extract_claim_object`. -/
def extractClaimObject (claim : Claim) : String :=
  let obj := strTrim claim.object
  if obj ≠ "" then obj else strTrim claim.claim_text

/-- Embedding of `_resolve_qid_label` (first containment label at zero hops,
falling back to the QID). -/
def resolveQidLabel (collab : Collab) (qid : String) : String :=
  match (collab.getPlaceContainment qid 0).labels with
  | l :: _ => l
  | [] => qid

/-- Embedding of `_extract_claim_place_candidates`. -/
def extractClaimPlaceCandidates (claim : Claim) : List String × List String :=
  let qids :=
    if claim.object_entity.entity_id ≠ "" && strStartsWith claim.object_entity.entity_id "Q" then
      [claim.object_entity.entity_id]
    else []
  let labels :=
    ([claim.object, claim.object_entity.canonical_name, claim.object_entity.text].map
      normalizeText).filter (· ≠ "")
  (qids, labels)

/-- Embedding of `_is_place_compatible_with_evidence` (containment lookups go
through the `Collab` oracle; the retriever's default hop bound is 3). -/
def isPlaceCompatible (collab : Collab) (claim : Claim) (evidence_item : EvidenceItem) : Bool :=
  let (claim_qids, claim_labels) := extractClaimPlaceCandidates claim
  if claim_qids = [] && claim_labels = [] then false
  else
    let evidence_qid := evidence_item.value
    if ¬ strStartsWith evidence_qid "Q" then
      let value_norm := normalizeText evidence_qid
      claim_labels.any (fun label =>
        label ≠ "" && value_norm ≠ "" &&
          (label = value_norm || strContains value_norm label || strContains label value_norm))
    else
      let containment := collab.getPlaceContainment evidence_qid 3
      let containment_qids := containment.qids
      let containment_labels := (containment.labels.filter (· ≠ "")).map normalizeText
      if claim_qids.any (fun q => containment_qids.contains q) then true
      else
        claim_labels.any (fun label =>
          containment_labels.contains label ||
            containment_labels.any (fun candidate =>
              candidate ≠ "" && (strContains candidate label || strContains label candidate)))

/-- Embedding of `_is_canonical_support_compatible`. -/
def isCanonicalSupportCompatible (collab : Collab) (claim : Claim)
    (evidence_item : EvidenceItem) : Bool :=
  let prop := evidence_item.property
  let claim_object := extractClaimObject claim
  let evidence_value := evidence_item.value
  if claim_object = "" then false
  else if TEMPORAL_PROPS.contains prop then
    if prop = "P571" && (extractClaimFacets claim).contains "INCEPTION" &&
        ¬ hasTemporalSignal claim then true
    else temporalCompatible claim_object evidence_value
  else if prop = "P19" || prop = "P20" || prop = "P159" then
    isPlaceCompatible collab claim evidence_item
  else if evidence_item.alignment.object_match = some true then true
  else
    let claim_norm := normalizeText claim_object
    let q_label_hit :=
      strStartsWith evidence_value "Q" &&
        (let evidence_label := normalizeText (resolveQidLabel collab evidence_value)
         evidence_label ≠ "" &&
           (claim_norm = evidence_label || strContains evidence_label claim_norm ||
            strContains claim_norm evidence_label))
    if q_label_hit then true
    else
      let value_norm := normalizeText evidence_value
      claim_norm ≠ "" && value_norm ≠ "" &&
        (claim_norm = value_norm || strContains value_norm claim_norm ||
         strContains claim_norm value_norm)

/-- `PropertyMapper.PREDICATE_MAP` (static research-prototype table), in dict
insertion order. -/
def PREDICATE_MAP : List (String × List String) :=
  [("founded", ["P112", "P571"]), ("established", ["P571", "P112"]),
   ("incorporated", ["P571", "P159", "P17", "P131"]), ("headquartered", ["P159", "P131"]),
   ("based", ["P159", "P131", "P17"]), ("created", ["P571", "P170", "P112"]),
   ("launched", ["P571", "P577", "P1056"]), ("acquired", ["P127", "P749", "P1365"]),
   ("merged", ["P156", "P155"]), ("owns", ["P127", "P749"]), ("publishes", ["P123"]),
   ("employs", ["P1128"]), ("operates", ["P159", "P276"]),
   ("born", ["P569", "P19"]), ("died", ["P570", "P20"]), ("spouse", ["P26"]),
   ("married", ["P26"]), ("educated", ["P69"]), ("studied", ["P69"]),
   ("graduated", ["P69"]), ("works", ["P108"]), ("worked", ["P108"]),
   ("employed", ["P108"]),
   ("ceo", ["P39", "P488", "P169"]), ("chief", ["P39", "P488", "P169"]),
   ("served", ["P39"]), ("appointed", ["P39"]), ("elected", ["P39"]),
   ("leads", ["P39", "P488"]), ("chairs", ["P488"]),
   ("wrote", ["P50"]), ("authored", ["P50"]), ("directed", ["P57"]),
   ("produced", ["P162"]), ("composed", ["P86"]), ("invented", ["P61"]),
   ("discovered", ["P61"]), ("designed", ["P170"]), ("developed", ["P178"]),
   ("released", ["P577"]), ("published", ["P577", "P123"]),
   ("located", ["P131", "P276", "P17"]), ("situated", ["P131", "P276"]),
   ("capital", ["P36"]),
   ("is", ["P31", "P279"]), ("was", ["P31", "P279"]),
   ("revenue", ["P2139"]), ("profit", ["P2295"]), ("valued", ["P2226"]),
   ("worth", ["P2226"]), ("traded", ["P414"]), ("listed", ["P414"]),
   ("public", ["P414", "P576"]), ("ipo", ["P414", "P576"])]

/-- Embedding of `PropertyMapper.get_potential_properties` (static table;
direct key hit first, then the first key contained in the predicate). -/
def getPotentialProperties (predicate : String) : List String :=
  let pred_lower := strTrim (strToLower predicate)
  match PREDICATE_MAP.find? (fun p => p.1 = pred_lower) with
  | some p => p.2
  | none =>
    match PREDICATE_MAP.find? (fun p => strContains pred_lower p.1) with
    | some p => p.2
    | none => []

/-- Embedding of `_resolve_target_properties` (set union kept as a list;
only emptiness and membership are ever consumed). -/
def resolveTargetProperties (claim : Claim) : List String :=
  let predicate := strToLower claim.predicate
  let claim_text := strToLower claim.claim_text
  let combined := strTrim (predicate ++ " " ++ claim_text)
  getPotentialProperties predicate ++
    (PREDICATE_PROPERTY_HINTS.filter (fun p => strContains combined p.1)).flatMap (·.2)

/-- Embedding of `_is_eligible` (the strict alignment filter; the Python
truthiness of tri-state fields makes an absent field fail closed). -/
def isEligible (item : EvidenceItem) (claim : Claim) : Bool :=
  let s_match := item.alignment.subject_match
  let p_match := item.alignment.predicate_match
  let t_match := item.alignment.temporal_match
  if ¬ (s_match.getD false && p_match.getD false) then false
  else if claim.claim_type = "TEMPORAL" then
    if t_match = none then false else true
  else true

/-- Evidence eligibility pass of `_verify_single_claim`: every source list in
dict order, the `grokipedia` key skipped, items filtered by `_is_eligible`. -/
def validEvidence (claim : Claim) (evidence : Evidence) : List EvidenceItem :=
  (evidence.primary_document ++ evidence.wikidata ++ evidence.wikipedia).filter
    (fun item => isEligible item claim)

/-- Embedding of `_supported_facets_from_wikidata` (the facets of the claim
this one structured item confirms). -/
def supportedFacetsFromWikidata (collab : Collab) (claim : Claim)
    (evidence_item : EvidenceItem) (claim_is_temporal : Bool)
    (object_match temporal_match : Option Bool) : List String :=
  let facets := extractClaimFacets claim
  let prop_id := evidence_item.property
  (if facets.contains "INCEPTION" && prop_id = "P571" then
    (if claim_is_temporal then
      (if temporal_match = some true || object_match = some true ||
          temporalCompatible (extractClaimObject claim) evidence_item.value then
        ["INCEPTION"] else [])
     else ["INCEPTION"])
   else []) ++
  (if facets.contains "HQ" && ["P159", "P276", "P131", "P17"].contains prop_id &&
      isPlaceCompatible collab claim evidence_item then ["HQ"] else []) ++
  (if facets.contains "NATIONALITY" && prop_id = "P27" &&
      (object_match = some true || isCanonicalSupportCompatible collab claim evidence_item) then
    ["NATIONALITY"] else []) ++
  (if facets.contains "OWNERSHIP" && ["P127", "P749", "P355", "P361"].contains prop_id &&
      object_match = some true then ["OWNERSHIP"] else []) ++
  (if facets.contains "TEMPORAL_GENERIC" && TEMPORAL_PROPS.contains prop_id &&
      (temporal_match = some true ||
        temporalCompatible (extractClaimObject claim) evidence_item.value) then
    ["TEMPORAL_GENERIC"] else [])

/-- Embedding of `_collect_positive_wikidata_properties`. -/
def collectPositiveWikidataProps (collab : Collab) (wikidata_evidence : List EvidenceItem)
    (claim : Claim) : List String :=
  let claim_object := extractClaimObject claim
  let claim_is_temporal := claim.claim_type = "TEMPORAL" || hasTemporalSignal claim
  let asserted_facets := extractClaimFacets claim
  wikidata_evidence.foldl (fun positive_props ev =>
    let prop := ev.property
    if prop = "" then positive_props
    else
      let o_match := ev.alignment.object_match
      let t_match := ev.alignment.temporal_match
      let value := ev.value
      let is_positive := isPositiveStructuredMatch prop o_match t_match claim_is_temporal
      if is_positive && isSupportFacetCompatible asserted_facets prop then
        positive_props ++ [prop]
      else if TEMPORAL_PROPS.contains prop && claim_object ≠ "" && claim_is_temporal &&
          temporalCompatible claim_object value &&
          isSupportFacetCompatible asserted_facets prop then
        positive_props ++ [prop]
      else if (prop = "P19" || prop = "P20" || prop = "P159") &&
          isPlaceCompatible collab claim ev &&
          isSupportFacetCompatible asserted_facets prop then
        positive_props ++ [prop]
      else positive_props) []

/-- Embedding of `_evaluate_location_contradiction`. -/
def evaluateLocationContradiction (collab : Collab) (claim : Claim)
    (evidence_item : EvidenceItem) : Bool × String :=
  let (claim_qids, claim_labels) := extractClaimPlaceCandidates claim
  if claim_qids = [] && claim_labels = [] then (false, "")
  else
    let evidence_qid := evidence_item.value
    if ¬ strStartsWith evidence_qid "Q" then (false, "")
    else
      let containment := collab.getPlaceContainment evidence_qid 3
      let containment_qids := containment.qids
      let containment_labels := (containment.labels.filter (· ≠ "")).map normalizeText
      if containment_qids = [] && containment_labels = [] then (false, "")
      else if isPlaceCompatible collab claim evidence_item then (false, "")
      else
        let joined := String.intercalate ", " (containment.labels.take 3)
        let matched_labels := if joined = "" then evidence_qid else joined
        (true, "authoritative location is " ++ matched_labels ++ ", not '" ++
          claim.object ++ "'.")

/-- Embedding of `_evaluate_ownership_contradiction`. -/
def evaluateOwnershipContradiction (collab : Collab) (claim : Claim)
    (evidence_item : EvidenceItem) : Bool × String :=
  let predicate_text := strToLower (claim.predicate ++ " " ++ claim.claim_text)
  if ¬ (["acquired", "acquire", "bought", "purchased", "takeover"].any
      (fun token => strContains predicate_text token)) then (false, "")
  else if ¬ (evidence_item.property = "P127" || evidence_item.property = "P749") then (false, "")
  else
    let subject_qid := claim.subject_entity.entity_id
    let object_qid := claim.object_entity.entity_id
    if ¬ (strStartsWith subject_qid "Q" && strStartsWith object_qid "Q") then (false, "")
    else if evidence_item.entity_id ≠ object_qid then (false, "")
    else
      let evidence_owner_qid := evidence_item.value
      if ¬ strStartsWith evidence_owner_qid "Q" then (false, "")
      else
        let accepted_owners :=
          subject_qid :: collab.getEntityPropertyQids subject_qid ["P127", "P749"]
        if accepted_owners.contains evidence_owner_qid then (false, "")
        else
          let owner_label := resolveQidLabel collab evidence_owner_qid
          (true, "target entity owner/parent is " ++ owner_label ++ " (" ++
            evidence_owner_qid ++ "), not the claim subject.")

/-- Embedding of `_evaluate_structured_contradiction`. -/
def evaluateStructuredContradiction (collab : Collab) (claim : Claim)
    (evidence_item : EvidenceItem) (target_properties positive_properties : List String) :
    Option Contradiction :=
  if ¬ (["RESOLVED", "RESOLVED_SOFT", "RESOLVED_COREF"].contains
      claim.subject_entity.resolution_status) then none
  else
    let prop := evidence_item.property
    if prop = "" then none
    else if target_properties ≠ [] && ¬ target_properties.contains prop then none
    else if positive_properties.contains prop then none
    else
      let claim_object := extractClaimObject claim
      if claim_object = "" then none
      else
        let evidence_value := evidence_item.value
        let evidence_id := evidence_item.evidence_id
        let prop_label := propLabelOf prop
        if TEMPORAL_PROPS.contains prop then
          let claim_years := extractYears claim_object
          let evidence_years := extractYears evidence_value
          if claim_years ≠ [] && evidence_years ≠ [] &&
              ¬ temporalCompatible claim_object evidence_value then
            some { reasoning := "Contradicted by Wikidata " ++ prop_label ++
                     ": claim year does not match authoritative record.",
                   confidence := 0.92, property := prop, evidence_id := evidence_id }
          else none
        else
          let loc :=
            if LOCATION_PROPS.contains prop then
              evaluateLocationContradiction collab claim evidence_item
            else (false, "")
          if LOCATION_PROPS.contains prop && loc.1 then
            some { reasoning := "Contradicted by Wikidata " ++ prop_label ++ ": " ++ loc.2,
                   confidence := 0.9, property := prop, evidence_id := evidence_id }
          else
            let own :=
              if OWNERSHIP_PROPS.contains prop then
                evaluateOwnershipContradiction collab claim evidence_item
              else (false, "")
            if OWNERSHIP_PROPS.contains prop && own.1 then
              some { reasoning := "Contradicted by Wikidata " ++ prop_label ++ ": " ++ own.2,
                     confidence := 0.88, property := prop, evidence_id := evidence_id }
            else if evidence_item.alignment.temporal_match = some false &&
                TEMPORAL_PROPS.contains prop then
              some { reasoning := "Contradicted by Wikidata " ++ prop_label ++ ".",
                     confidence := 0.9, property := prop, evidence_id := evidence_id }
            else none

/-! ## claim_verifier.py: the per-claim scan state machine -/

/-- Accumulator state of `_verify_single_claim`'s per-source scan. Evidence id
lists may hold `none` entries (`ev.get("evidence_id")` can return `None`); the
output assembly later deduplicates and drops falsy ids. -/
structure ScanState where
  supporting_ids : List (Option String) := []
  refuting_ids : List (Option String) := []
  authoritative_contradictions : List Contradiction := []
  best_support_score : ℚ := 0
  best_refute_score : ℚ := 0
  best_evidence_item : Option EvidenceItem := none
  has_direct_support : Bool := false
  has_contradiction : Bool := false
  weak_support_count : ℕ := 0
  weak_support_total_score : ℚ := 0
  facet_status : List (String × String) := []
  textual_hallucinations : List HFlag := []
  deriving Repr, DecidableEq

/-- Update of an existing key in the facet-status map. -/
def setFacetStatus (fs : List (String × String)) (facet status : String) :
    List (String × String) :=
  fs.map (fun p => if p.1 = facet then (p.1, status) else p)

/-- Initial scan state: every asserted facet `UNKNOWN`, sorted key order. -/
def initialScanState (asserted_facets : List String) : ScanState :=
  { facet_status := (sortStrings asserted_facets).map (fun f => (f, "UNKNOWN")) }

/-- Embedding of one iteration of the per-source scan loop of
`_verify_single_claim` (source lines 188–383). -/
def scanStep (collab : Collab) (config : Config) (claim : Claim)
    (claim_is_temporal : Bool) (asserted_facets : List String)
    (st : ScanState) (ev : EvidenceItem) : ScanState :=
  if ev.source = "PRIMARY_DOCUMENT" then
    -- Any eligible primary item is immediately authoritative: support is
    -- locked at 0.95 and the loop continues with the next item.
    { st with supporting_ids := st.supporting_ids ++ [ev.evidence_id],
              has_direct_support := true,
              best_evidence_item := some ev,
              best_support_score := 0.95 }
  else if ev.source = "WIKIDATA" then
    let s_match := ev.alignment.subject_match.getD false
    let p_match := ev.alignment.predicate_match.getD false
    let o_match := ev.alignment.object_match
    let t_match := ev.alignment.temporal_match
    let prop_id := ev.property
    let is_canonical_biographical := CANONICAL_BIOGRAPHICAL_PROPS.contains prop_id
    let temporal_mismatch :=
      t_match = some false && ¬ is_canonical_biographical && claim_is_temporal &&
        ¬ temporalCompatible claim.object ev.value
    let is_refutation := temporal_mismatch
    let st :=
      if temporal_mismatch then
        { st with refuting_ids := st.refuting_ids ++ [ev.evidence_id] }
      else st
    let st :=
      if is_refutation then
        { st with has_contradiction := true,
                  best_refute_score :=
                    if st.best_refute_score < 0.9 then 0.9 else st.best_refute_score }
      else if s_match && p_match && is_canonical_biographical &&
          isCanonicalSupportCompatible collab claim ev &&
          canonicalOverrideAllowed claim prop_id &&
          isSupportFacetCompatible asserted_facets prop_id then
        let st := { st with supporting_ids := st.supporting_ids ++ [ev.evidence_id],
                            has_direct_support := true }
        if CONFIDENCE_CAP_STRUCTURED > st.best_support_score then
          { st with best_support_score := CONFIDENCE_CAP_STRUCTURED,
                    best_evidence_item :=
                      some { ev with support_type := some "CANONICAL_BIOGRAPHICAL" } }
        else st
      else if s_match && p_match then
        let is_positive_match := isPositiveStructuredMatch prop_id o_match t_match claim_is_temporal
        let facet_compatible := isSupportFacetCompatible asserted_facets prop_id
        if is_positive_match && facet_compatible then
          let st := { st with supporting_ids := st.supporting_ids ++ [ev.evidence_id],
                              has_direct_support := true }
          if CONFIDENCE_CAP_STRUCTURED > st.best_support_score then
            { st with best_support_score := CONFIDENCE_CAP_STRUCTURED,
                      best_evidence_item :=
                        some { ev with support_type := some "STRUCTURED_INDEPENDENT" } }
          else st
        else if o_match = none && t_match = none && asserted_facets = [] then
          if ¬ TEMPORAL_PROPS.contains prop_id then
            let st := { st with supporting_ids := st.supporting_ids ++ [ev.evidence_id],
                                has_direct_support := true }
            if (0.75 : ℚ) > st.best_support_score then
              { st with best_support_score := 0.75,
                        best_evidence_item :=
                          some { ev with support_type := some "STRUCTURED_PARTIAL" } }
            else st
          else st
        else
          -- Temporal-only evidence on non-temporal claims only annotates the
          -- evidence item (`support_type = CONTEXT_ONLY_TEMPORAL`); no state
          -- read later in the pipeline changes.
          st
      else st
    let supported_facets_for_ev :=
      supportedFacetsFromWikidata collab claim ev claim_is_temporal o_match t_match
    let fs2 :=
      supported_facets_for_ev.foldl (fun fs f => setFacetStatus fs f "SUPPORTED")
        st.facet_status
    { st with facet_status := fs2 }
  else if ev.source = "WIKIPEDIA" then
    let sent_text := if ev.sentence ≠ "" then ev.sentence else ev.snippet
    if sent_text = "" then st
    else
      let nli_result :=
        if ¬ config.disable_nli then collab.nliClassify sent_text claim.claim_text
        else
          -- Ablation fallback: entailment only on high similarity.
          let base : NLIResult := { entailment := 0, contradiction := 0, neutral := 1 }
          if ev.score > 0.8 then { base with entailment := 0.8 } else base
      let alignment := scoreAlignment claim.claim_text ev nli_result
      if alignment.signal = "SUPPORT" then
        let st := { st with supporting_ids := st.supporting_ids ++ [ev.evidence_id],
                            has_direct_support := true }
        if alignment.score > st.best_support_score then
          { st with best_support_score := alignment.score, best_evidence_item := some ev }
        else st
      else if alignment.signal = "CONTRADICTION" then
        let st := { st with refuting_ids := st.refuting_ids ++ [ev.evidence_id],
                            has_contradiction := true }
        let st :=
          if alignment.score > st.best_refute_score then
            { st with best_refute_score := alignment.score }
          else st
        match attributeFlag alignment ev with
        | some h_flag =>
          { st with textual_hallucinations := st.textual_hallucinations ++ [h_flag] }
        | none => st
      else if alignment.signal = "WEAK_SUPPORT" then
        { st with weak_support_count := st.weak_support_count + 1,
                  weak_support_total_score := st.weak_support_total_score + alignment.score }
      else st
  else st

/-- Embedding of one iteration of the predicate-aware structured-contradiction
pass over all Wikidata evidence (source lines 387–411). The source also writes
a freshly generated id back onto an id-less evidence item; that write is
observable only in phases that are skipped once `has_contradiction` holds, so
the id flows directly into the recorded contradiction here. -/
def contradictionStep (collab : Collab) (claim : Claim)
    (target_properties positive_properties : List String)
    (st : ScanState) (ev : EvidenceItem) : ScanState :=
  match evaluateStructuredContradiction collab claim ev target_properties positive_properties with
  | none => st
  | some contradiction =>
    let truthy : Option String → Option String := fun o =>
      match o with
      | some s => if s = "" then none else some s
      | none => none
    let evidence_id : String :=
      match truthy contradiction.evidence_id with
      | some s => s
      | none =>
        match truthy ev.evidence_id with
        | some s => s
        | none => collab.genEvidenceId ev
    let contradiction := { contradiction with evidence_id := some evidence_id }
    let st := { st with
      authoritative_contradictions := st.authoritative_contradictions ++ [contradiction],
      refuting_ids := st.refuting_ids ++ [some evidence_id],
      has_contradiction := true }
    let contradicted_facet := facetForProperty ev.property
    let st :=
      if st.facet_status.any (fun p => p.1 = contradicted_facet) then
        { st with facet_status := setFacetStatus st.facet_status contradicted_facet "CONTRADICTED" }
      else st
    if contradiction.confidence > st.best_refute_score then
      { st with best_refute_score := contradiction.confidence }
    else st

/-- Embedding of the v1.3.1 KG fallback verification (source lines 415–453):
when nothing supported or contradicted the claim, scan the raw Wikidata
evidence for a canonical property of the claim's predicate. -/
def kgFallback (collab : Collab) (claim : Claim) (st : ScanState) : ScanState :=
  let claim_pred := strToLower claim.predicate
  let claim_text := strToLower claim.claim_text
  let target_prop : Option String :=
    match CANONICAL_PRED_MAP.find? (fun p => strContains claim_pred p.1) with
    | some p => some p.2
    | none =>
      match CANONICAL_LOCATION_PRED_MAP.find? (fun p =>
          strContains claim_pred p.1 || strContains claim_text p.1) with
      | some p => some p.2
      | none => none
  let is_asserted := claim.epistemic_status = "ASSERTED"
  let is_resolved := ["RESOLVED", "RESOLVED_SOFT", "RESOLVED_COREF"].contains
    claim.subject_entity.resolution_status
  match target_prop with
  | none => st
  | some target =>
    if is_asserted && is_resolved then
      match claim.evidence.wikidata.find? (fun ev =>
          ev.property = target &&
          isCanonicalSupportCompatible collab claim ev &&
          canonicalOverrideAllowed claim target &&
          isSupportFacetCompatible (extractClaimFacets claim) target) with
      | some ev =>
        { st with supporting_ids := st.supporting_ids ++ [ev.evidence_id],
                  has_direct_support := true,
                  best_support_score := 0.95,
                  best_evidence_item := some { ev with source_type := some "STRUCTURED_KG" } }
      | none => st
    else st

/-! ## claim_verifier.py: verdict resolution, facet adjustment, assembly -/

/-- Python `max(xs, key=k)` on a nonempty list: the first element with the
maximal key (later elements replace only on a strictly greater key). -/
def pyMaxBy {α : Type} (key : α → ℚ) (d : α) : List α → α
  | [] => d
  | x :: xs => xs.foldl (fun best y => if key y > key best then y else best) x

/-- Embedding of `_build_wikidata_support_reasoning`. -/
def buildWikidataSupportReasoning (evidence_item : EvidenceItem) (claim_is_temporal : Bool) :
    String :=
  let prop := evidence_item.property
  let prop_label := propLabelOf prop
  let value := evidence_item.value
  if TEMPORAL_PROPS.contains prop then
    if claim_is_temporal then
      "Supported by Wikidata: " ++ prop_label ++ " (" ++ prop ++ ") matches claim timing."
    else
      "Context evidence: Wikidata lists " ++ prop_label ++ " (" ++ prop ++ ") as " ++ value ++
        ", but claim has no temporal constraint."
  else if LOCATION_PROPS.contains prop then
    "Supported by Wikidata: " ++ prop_label ++ " (" ++ prop ++ ") aligns with claim location."
  else if OWNERSHIP_PROPS.contains prop then
    "Supported by Wikidata: " ++ prop_label ++ " (" ++ prop ++
      ") aligns with claim ownership relation."
  else
    "Supported by Wikidata: " ++ prop_label ++ " (" ++ prop ++ ") aligns with claim."

/-- Embedding of the strict-precedence verdict resolution of
`_verify_single_claim` (source lines 454–572), returning
(verdict, confidence, reasoning) before the facet-based post-adjustment. -/
def resolveVerdict (evidence : Evidence) (valid_evidence : List EvidenceItem)
    (claim_is_temporal : Bool) (st : ScanState) (hallucinations : List HFlag) :
    String × ℚ × String :=
  let critical_hallucinations := hallucinations.filter (fun h => h.severity = "CRITICAL")
  let non_critical_hallucinations := hallucinations.filter (fun h => h.severity = "NON_CRITICAL")
  if critical_hallucinations ≠ [] then
    -- 1. Critical hallucination: always REFUTED at the flag's score.
    let best_h := pyMaxBy HFlag.score default critical_hallucinations
    ("REFUTED", best_h.score, "Critical Hallucination: " ++ best_h.reason)
  else if st.has_contradiction then
    -- 2. Contradiction.
    let vc : String × ℚ :=
      if st.refuting_ids ≠ [] then
        ("REFUTED", min 0.95 (max 0.7 st.best_refute_score))
      else ("UNCERTAIN", 0.5)
    let reasoning :=
      if st.authoritative_contradictions ≠ [] then
        (pyMaxBy Contradiction.confidence default st.authoritative_contradictions).reasoning
      else "Contradicted by textual evidence."
    (vc.1, vc.2, reasoning)
  else if non_critical_hallucinations ≠ [] then
    -- 3. Non-critical hallucination blocks support.
    let best_h := pyMaxBy HFlag.score default non_critical_hallucinations
    if non_critical_hallucinations.any (fun h => h.hallucination_type = "AUTHORITY_BLEED") then
      ("REFUTED", 0.9, "Refuted by Hallucination: " ++ best_h.reason)
    else
      ("UNCERTAIN", 0.5, "Uncertain: " ++ best_h.reason)
  else if st.has_direct_support then
    -- 4. Direct support, with modality-based confidence capping.
    let best_item := st.best_evidence_item.getD default
    let raw_confidence := min 0.99 st.best_support_score
    let confidence :=
      if best_item.source = "PRIMARY_DOCUMENT" then min raw_confidence CONFIDENCE_CAP_PRIMARY
      else if best_item.source = "WIKIDATA" || best_item.modality = "STRUCTURED" then
        min raw_confidence CONFIDENCE_CAP_STRUCTURED
      else raw_confidence
    let reasoning :=
      if best_item.source = "PRIMARY_DOCUMENT" then
        "Supported by primary document: " ++ best_item.authority ++ " " ++
          best_item.document_type ++ " (" ++ best_item.filing_year ++ ")."
      else if best_item.source = "WIKIDATA" then
        buildWikidataSupportReasoning best_item claim_is_temporal
      else if best_item.source = "WIKIPEDIA" then
        let snippet := best_item.snippet
        let snippet_preview :=
          if snippet.length > 100 then snippet.take 100 ++ "..." else snippet
        "Supported by Wikipedia: \"" ++ snippet_preview ++ "\""
      else "No authoritative evidence found."
    ("SUPPORTED", confidence, reasoning)
  else
    -- 5. Insufficient evidence, with the weak-support accumulation upgrade.
    let reasoning :=
      if valid_evidence = [] && evidence.grokipedia ≠ [] then
        "Only narrative evidence available (Grokipedia)."
      else if evidence.wikipedia.any (fun ev => ev.score > 0.6) then
        "Evidence found but insufficient for verification."
      else "No relevant evidence found."
    if st.weak_support_count ≥ 2 && ¬ st.has_contradiction then
      let avg_weak_score := st.weak_support_total_score / (st.weak_support_count : ℚ)
      if avg_weak_score ≥ 0.68 then
        ("UNCERTAIN", 0.5,
          "Multiple weak corroborations (" ++ toString st.weak_support_count ++
            " sources, avg score " ++ formatQ2 avg_weak_score ++
            "). Suggestive but not conclusive.")
      else ("INSUFFICIENT_EVIDENCE", 0, reasoning)
    else ("INSUFFICIENT_EVIDENCE", 0, reasoning)

/-- Embedding of the facet-based verdict post-adjustment of
`_verify_single_claim` (source lines 574–608). Returns the adjusted
(verdict, confidence, reasoning) together with the supported, contradicted
and unresolved facet lists. -/
def facetAdjust (asserted_nonempty : Bool) (facet_status : List (String × String))
    (verdict : String) (confidence : ℚ) (reasoning : String) :
    (String × ℚ × String) × (List String × List String × List String) :=
  let supported_facets :=
    sortStrings ((facet_status.filter (fun p => p.2 = "SUPPORTED")).map (·.1))
  let contradicted_facets :=
    sortStrings ((facet_status.filter (fun p => p.2 = "CONTRADICTED")).map (·.1))
  let unresolved_facets :=
    sortStrings ((facet_status.filter (fun p =>
      p.2 ≠ "SUPPORTED" && p.2 ≠ "CONTRADICTED")).map (·.1))
  let facets := (supported_facets, contradicted_facets, unresolved_facets)
  if verdict ≠ "REFUTED" && asserted_nonempty then
    if contradicted_facets ≠ [] then
      (("REFUTED", max confidence 0.85,
        "Contradicted facets: " ++
          String.intercalate ", " (contradicted_facets.map facetLabel) ++ "."), facets)
    else if supported_facets ≠ [] && unresolved_facets ≠ [] then
      (("PARTIALLY_SUPPORTED", max confidence 0.6,
        "Partially supported: supported facets " ++
          String.intercalate ", " (supported_facets.map facetLabel) ++
          "; not verified facets " ++
          String.intercalate ", " (unresolved_facets.map facetLabel) ++ "."), facets)
    else if supported_facets = [] && verdict = "SUPPORTED" then
      (("UNCERTAIN", min confidence 0.5,
        "No asserted facets were directly supported by evidence."), facets)
    else if supported_facets ≠ [] && unresolved_facets = [] && verdict ≠ "SUPPORTED" then
      (("SUPPORTED", max confidence 0.7,
        "Supported facets: " ++
          String.intercalate ", " (supported_facets.map facetLabel) ++ "."), facets)
    else ((verdict, confidence, reasoning), facets)
  else ((verdict, confidence, reasoning), facets)

/-- Python `dict.fromkeys` deduplication: first-seen order preserved. -/
def dedupFirstSeen (l : List (Option String)) : List (Option String) :=
  l.foldl (fun acc x => if acc.contains x then acc else acc ++ [x]) []

/-- Final id cleanup of `_verify_single_claim`: deduplicate preserving order,
then drop falsy entries (`None` and the empty string). -/
def cleanIds (l : List (Option String)) : List String :=
  (dedupFirstSeen l).filterMap (fun o =>
    match o with
    | some s => if s = "" then none else some s
    | none => none)

/-- Final steps of `_verify_single_claim` (source lines 610–645): normalization
(SUPPORTED clears residual hallucination flags) and output assembly. The
derived `evidence_sufficiency` / `evidence_summary` presentation views are not
modelled. -/
def finishClaim (claim : Claim) (asserted_nonempty : Bool) (st : ScanState)
    (verdict : String) (confidence : ℚ) (reasoning : String)
    (supported_facets contradicted_facets unresolved_facets : List String)
    (hallucinations : List HFlag) : Claim :=
  let hallucinations :=
    if verdict = "SUPPORTED" && hallucinations ≠ [] then [] else hallucinations
  { claim with
    hallucinations := hallucinations,
    verification := some
      { verdict := verdict,
        confidence := pyRound confidence 2,
        used_evidence_ids := cleanIds st.supporting_ids,
        contradicted_by := cleanIds st.refuting_ids,
        reasoning := reasoning,
        facet_status := st.facet_status,
        supported_facets := supported_facets,
        unsupported_facets := unresolved_facets,
        contradicted_facets := contradicted_facets,
        support_completeness :=
          if verdict = "PARTIALLY_SUPPORTED" then "partial"
          else if verdict = "SUPPORTED" && asserted_nonempty then "complete"
          else "unknown",
        authoritative_contradictions := st.authoritative_contradictions } }

/-- Embedding of `_verify_single_claim`: eligibility filter, per-source scan,
structured-contradiction pass, KG fallback, hallucination merge, strict
precedence, facet adjustment, normalization, assembly. -/
def verifySingleClaim (collab : Collab) (config : Config) (claim : Claim) : Claim :=
  let evidence := claim.evidence
  let claim_is_temporal := claim.claim_type = "TEMPORAL" || hasTemporalSignal claim
  let asserted_facets := extractClaimFacets claim
  let target_wikidata_props := resolveTargetProperties claim
  let wikidata_positive_props := collectPositiveWikidataProps collab evidence.wikidata claim
  let valid_evidence := validEvidence claim evidence
  let st := valid_evidence.foldl
    (scanStep collab config claim claim_is_temporal asserted_facets)
    (initialScanState asserted_facets)
  let st := evidence.wikidata.foldl
    (contradictionStep collab claim target_wikidata_props wikidata_positive_props) st
  let st :=
    if ¬ st.has_direct_support && ¬ st.has_contradiction then kgFallback collab claim st
    else st
  let hallucinations := collab.detect claim evidence ++ st.textual_hallucinations
  let base := resolveVerdict evidence valid_evidence claim_is_temporal st hallucinations
  let adjusted := facetAdjust (asserted_facets ≠ []) st.facet_status base.1 base.2.1 base.2.2
  finishClaim claim (asserted_facets ≠ []) st
    adjusted.1.1 adjusted.1.2.1 adjusted.1.2.2
    adjusted.2.1 adjusted.2.2.1 adjusted.2.2.2
    hallucinations

/-! ## claim_verifier.py: the batch entry point `verify_claims` -/

/-- Error verification installed by the per-claim exception handler of
`verify_claims`. -/
def errorVerification (message : String) : Verification :=
  { verdict := "INSUFFICIENT_EVIDENCE",
    reasoning := "Verification error: " ++ message,
    confidence := 0 }

/-- One iteration of the batch loop: the per-claim verifier is a fallible
function (modelling Python exceptions as `Except`); an exception is caught and
converted to a local INSUFFICIENT_EVIDENCE verification. -/
def processOne (verify : Claim → Except String Claim) (claim : Claim) : Claim :=
  match verify claim with
  | .ok verified_claim => verified_claim
  | .error e => { claim with verification := some (errorVerification e) }

/-- The batch loop of `verify_claims`: one output claim appended per input
claim, in input order, whether its verification succeeds or raises. -/
def processClaims (verify : Claim → Except String Claim) : List Claim → List Claim
  | [] => []
  | claim :: rest => processOne verify claim :: processClaims verify rest

/-- Count of claims the sanity rule regards as verified
(verdict SUPPORTED or PARTIALLY_SUPPORTED). The source indexes
`c["verification"]["verdict"]` directly; a claim with no verification cannot
occur there because both branches of the batch loop install one, and is read
as having no verdict here. -/
def countVerified (claims : List Claim) : ℕ :=
  claims.countP (fun c =>
    c.finalVerdict = "SUPPORTED" || c.finalVerdict = "PARTIALLY_SUPPORTED")

/-- Downgrade applied by the sanity rule: INSUFFICIENT_EVIDENCE becomes
UNCERTAIN with a reasoning suffix; every other claim is untouched. -/
def downgradeInsufficient (c : Claim) : Claim :=
  match c.verification with
  | some v =>
    if v.verdict = "INSUFFICIENT_EVIDENCE" then
      { c with verification := some ({ v with
          verdict := "UNCERTAIN",
          reasoning := v.reasoning ++ " [System: Low confidence fallback]" }) }
    else c
  | none => c

/-- The sanity rule of `verify_claims` (source lines 130–144): with more than
3 output claims and zero verified ones, downgrade INSUFFICIENT_EVIDENCE
verdicts to UNCERTAIN. -/
def sanityPass (output_claims : List Claim) : List Claim :=
  if output_claims.length > 3 && countVerified output_claims = 0 then
    output_claims.map downgradeInsufficient
  else output_claims

/-- Embedding of `verify_claims` (per-claim loop with fault isolation, then
the batch sanity rule). -/
def verifyClaims (verify : Claim → Except String Claim) (claims : List Claim) : List Claim :=
  sanityPass (processClaims verify claims)

/-! ## Convenience accessors -/

/-- Final confidence of a claim (0 when no verification present). -/
def Claim.finalConfidence (c : Claim) : ℚ :=
  match c.verification with
  | some v => v.confidence
  | none => 0

/-- Final reasoning of a claim (empty when no verification present). -/
def Claim.finalReasoning (c : Claim) : String :=
  match c.verification with
  | some v => v.reasoning
  | none => ""

/-! ## Spec-side definitions

The following definitions transcribe the specification's wording (not the
source) and are compared against the embedded source functions in the
refinement theorems below. -/

/-- Spec wording of the alignment decision list: SUPPORT if
(score≥0.85 ∧ entailment>0.5) ∨ (score≥0.75 ∧ entailment>0.8) ∨ score≥0.92
with resulting score (score+entailment)/2; else CONTRADICTION if
contradiction>0.75 at the contradiction probability; else WEAK_SUPPORT if
score>0.65 at the similarity; else NEUTRAL at 0. -/
def alignmentSpec (similarity entailment contradiction : ℚ) : String × ℚ :=
  if (similarity ≥ 0.85 ∧ entailment > 0.5) ∨ (similarity ≥ 0.75 ∧ entailment > 0.8) ∨
      similarity ≥ 0.92 then
    ("SUPPORT", (similarity + entailment) / 2)
  else if contradiction > 0.75 then
    ("CONTRADICTION", contradiction)
  else if similarity > 0.65 then
    ("WEAK_SUPPORT", similarity)
  else
    ("NEUTRAL", 0)

/-- Spec wording of the risk score: count only claims whose verdict is in the
canonical set, T = that count, r = refuted/max(1,T), i = insufficient/max(1,T),
u = (uncertain+partially_supported)/max(1,T), raw = 1.0·r + 0.6·i + 0.3·u,
dampened by T/5 when T < 5, clamped to [0,1] and rounded to 3 decimals. -/
def riskScoreSpec (claims : List Claim) : ℚ :=
  let T := (claims.filter (fun c => validVerdicts.any (fun s => riskVerdictIs s c))).length
  let Tq : ℚ := (max 1 T : ℕ)
  let r : ℚ := (claims.countP (riskVerdictIs "REFUTED") : ℚ) / Tq
  let i : ℚ := (claims.countP (riskVerdictIs "INSUFFICIENT_EVIDENCE") : ℚ) / Tq
  let u : ℚ := ((claims.countP (riskVerdictIs "UNCERTAIN") +
    claims.countP (riskVerdictIs "PARTIALLY_SUPPORTED") : ℕ) : ℚ) / Tq
  let raw : ℚ := 1.0 * r + 0.6 * i + 0.3 * u
  let raw := if T < 5 then raw * ((T : ℚ) / 5) else raw
  pyRound (clamp01 raw) 3

/-! ## Concrete example data used by witnesses and counterexamples -/

/-- Alignment with subject and predicate confirmed. -/
def exAlign : Alignment := { subject_match := some true, predicate_match := some true }

/-- Eligible primary-document evidence item. -/
def exPrimaryItem : EvidenceItem :=
  { source := "PRIMARY_DOCUMENT", evidence_id := some "p1", alignment := exAlign }

/-- Eligible Wikipedia item with very high retrieval similarity. -/
def exWikipediaStrong : EvidenceItem :=
  { source := "WIKIPEDIA", evidence_id := some "w1", alignment := exAlign,
    sentence := "s", snippet := "x", score := 0.96 }

/-- Eligible Wikipedia item with moderate retrieval similarity. -/
def exWikipediaWeak : EvidenceItem :=
  { source := "WIKIPEDIA", evidence_id := some "w2", alignment := exAlign,
    sentence := "s", snippet := "x", score := 0.5 }

/-- Collaborators whose NLI model strongly entails every pair. -/
def exSupportCollab : Collab :=
  { nliClassify := fun _ _ => { entailment := 0.98, contradiction := 0, neutral := 0.02 } }

/-- Collaborators whose NLI model contradicts every pair at 0.8. -/
def exContradictCollab : Collab :=
  { nliClassify := fun _ _ => { entailment := 0.05, contradiction := 0.8, neutral := 0.15 } }

/-- Claim holding both a primary-document item and a strong Wikipedia item
(no facet keywords, no temporal signal). -/
def exClaimPW : Claim :=
  { claim_id := "c5", claim_text := "a b", subject := "a", predicate := "rel",
    object := "b", claim_type := "RELATION",
    evidence := { primary_document := [exPrimaryItem], wikipedia := [exWikipediaStrong] } }

/-- Claim holding only the primary-document item. -/
def exClaimP : Claim :=
  { claim_id := "c4", claim_text := "a b", subject := "a", predicate := "rel",
    object := "b", claim_type := "RELATION",
    evidence := { primary_document := [exPrimaryItem] } }

/-- Claim holding only the moderate Wikipedia item (textual contradiction
under `exContradictCollab`). -/
def exClaimW : Claim :=
  { claim_id := "c8", claim_text := "a b", subject := "a", predicate := "rel",
    object := "b", claim_type := "RELATION",
    evidence := { wikipedia := [exWikipediaWeak] } }

/-- Scan state reached on `exClaimPW` (primary item scanned first, then the
strong Wikipedia item), exactly as `verifySingleClaim` computes it. -/
def exScanStatePW : ScanState :=
  (validEvidence exClaimPW exClaimPW.evidence).foldl
    (scanStep exSupportCollab {} exClaimPW
      (exClaimPW.claim_type = "TEMPORAL" || hasTemporalSignal exClaimPW)
      (extractClaimFacets exClaimPW))
    (initialScanState (extractClaimFacets exClaimPW))

/-- The textual-contradiction flag the attributor emits on `exClaimW` under
`exContradictCollab`. -/
def exContraFlag : HFlag :=
  { hallucination_type := "TEXTUAL_CONTRADICTION", severity := "CRITICAL",
    score := 0.8, reason := "Directly contradicted by evidence: \"x...\"",
    evidence_ref := some "w2" }

/-- Scan state with only a contradiction recorded (used by the C1 witness). -/
def exContraState : ScanState :=
  { has_contradiction := true, refuting_ids := [some "r1"], best_refute_score := 0.8,
    authoritative_contradictions :=
      [{ reasoning := "Contradicted by Wikidata inception.", confidence := 0.92,
         property := "P571", evidence_id := some "r1" }] }

/-- Scan state with two accumulated weak supports averaging 0.7 (used by the
C1 counterexample: the weak-accumulation upgrade fires). -/
def exWeakState : ScanState :=
  { weak_support_count := 2, weak_support_total_score := 1.4 }

/-- Claim carrying a PARTIALLY_SUPPORTED verification. -/
def exPartialClaim : Claim :=
  { claim_id := "pp", verification := some { verdict := "PARTIALLY_SUPPORTED" } }

/-- Claim carrying an INSUFFICIENT_EVIDENCE verification. -/
def exInsufficientClaim : Claim :=
  { claim_id := "ii", verification := some { verdict := "INSUFFICIENT_EVIDENCE" } }

/-- Claim carrying a REFUTED verification. -/
def exRefutedClaim : Claim :=
  { claim_id := "rr", verification := some { verdict := "REFUTED" } }

/-- Claim carrying a SUPPORTED verification. -/
def exSupportedClaim : Claim :=
  { claim_id := "ss", verification := some { verdict := "SUPPORTED" } }

/-- Document with one PARTIALLY_SUPPORTED and three INSUFFICIENT_EVIDENCE
claims: more than 3 claims, zero SUPPORTED, yet the sanity rule does not fire
because PARTIALLY_SUPPORTED also counts as verified. -/
def exBatchPartial : List Claim :=
  [exPartialClaim, exInsufficientClaim, exInsufficientClaim, exInsufficientClaim]

/-- Document of four INSUFFICIENT_EVIDENCE claims (the sanity rule fires). -/
def exBatchAllInsufficient : List Claim :=
  [exInsufficientClaim, exInsufficientClaim, exInsufficientClaim, exInsufficientClaim]

/-- Per-claim verifier that always raises. -/
def exFailVerify : Claim → Except String Claim := fun _ => .error "boom"

/-- Bare evidence item carrying only a similarity score of 0.9. -/
def exC3Item : EvidenceItem := { score := 0.9 }

/-- NLI triple with entailment 0.6. -/
def exC3Nli : NLIResult := { entailment := 0.6 }

/-! ## Helper lemmas

The rational primitives of the standard library are `@[irreducible]`; concrete
evaluation in witnesses and counterexamples needs them unfolded during
elaboration (kernel checking is unaffected). -/

section RatEval

set_option allowUnsafeReducibility true

attribute [local semireducible] Rat.mul Rat.add Rat.sub Rat.inv Rat.ofScientific

set_option maxRecDepth 1000000

theorem pyFold_mem {α : Type} (key : α → ℚ) :
    ∀ (xs : List α) (a : α),
      xs.foldl (fun best y => if key y > key best then y else best) a = a ∨
      xs.foldl (fun best y => if key y > key best then y else best) a ∈ xs := by
  intro xs
  induction xs with
  | nil => intro a; left; rfl
  | cons x xs ih =>
    intro a
    simp only [List.foldl_cons]
    rcases ih (if key x > key a then x else a) with h | h
    · rw [h]
      by_cases hx : key x > key a
      · right; simp [hx]
      · left; simp [hx]
    · right; exact List.mem_cons_of_mem _ h

theorem pyFold_le_acc {α : Type} (key : α → ℚ) :
    ∀ (xs : List α) (a : α),
      key a ≤ key (xs.foldl (fun best y => if key y > key best then y else best) a) := by
  intro xs
  induction xs with
  | nil => intro a; exact le_refl _
  | cons x xs ih =>
    intro a
    simp only [List.foldl_cons]
    refine le_trans ?_ (ih (if key x > key a then x else a))
    by_cases hx : key x > key a
    · simp [hx]; exact le_of_lt hx
    · simp [hx]

theorem pyFold_le_mem {α : Type} (key : α → ℚ) :
    ∀ (xs : List α) (a : α) (y : α), y ∈ xs →
      key y ≤ key (xs.foldl (fun best y => if key y > key best then y else best) a) := by
  intro xs
  induction xs with
  | nil => intro a y hy; cases hy
  | cons x xs ih =>
    intro a y hy
    simp only [List.foldl_cons]
    rcases List.mem_cons.mp hy with h | h
    · subst h
      refine le_trans ?_ (pyFold_le_acc key xs _)
      by_cases hx : key y > key a
      · simp [hx]
      · simp [hx]; exact le_of_not_gt hx
    · exact ih _ y h

theorem pyMaxBy_mem {α : Type} (key : α → ℚ) (d : α) (l : List α) (h : l ≠ []) :
    pyMaxBy key d l ∈ l := by
  cases l with
  | nil => exact absurd rfl h
  | cons x xs =>
    simp only [pyMaxBy]
    rcases pyFold_mem key xs x with h' | h'
    · rw [h']; exact List.mem_cons_self _ _
    · exact List.mem_cons_of_mem _ h'

theorem pyMaxBy_maximal {α : Type} (key : α → ℚ) (d : α) (l : List α) :
    ∀ y ∈ l, key y ≤ key (pyMaxBy key d l) := by
  cases l with
  | nil => intro y hy; cases hy
  | cons x xs =>
    intro y hy
    simp only [pyMaxBy]
    rcases List.mem_cons.mp hy with h | h
    · subst h; exact pyFold_le_acc key xs y
    · exact pyFold_le_mem key xs x y h

theorem processClaims_length (verify : Claim → Except String Claim) :
    ∀ cs : List Claim, (processClaims verify cs).length = cs.length := by
  intro cs
  induction cs with
  | nil => rfl
  | cons c rest ih => simp [processClaims, ih]

theorem processClaims_getElem (verify : Claim → Except String Claim) :
    ∀ (cs : List Claim) (i : ℕ),
      (processClaims verify cs)[i]? = cs[i]?.map (processOne verify) := by
  intro cs
  induction cs with
  | nil => intro i; rfl
  | cons c rest ih =>
    intro i
    cases i with
    | zero => simp [processClaims]
    | succ j => simpa [processClaims] using ih j

theorem finishClaim_verdict (claim : Claim) (an : Bool) (st : ScanState)
    (verdict : String) (confidence : ℚ) (reasoning : String)
    (sf cf uf : List String) (halls : List HFlag) :
    (finishClaim claim an st verdict confidence reasoning sf cf uf halls).finalVerdict =
      verdict := rfl

theorem finishClaim_supported_clears (claim : Claim) (an : Bool) (st : ScanState)
    (verdict : String) (confidence : ℚ) (reasoning : String)
    (sf cf uf : List String) (halls : List HFlag)
    (h : (finishClaim claim an st verdict confidence reasoning sf cf uf halls).finalVerdict =
      "SUPPORTED") :
    (finishClaim claim an st verdict confidence reasoning sf cf uf halls).hallucinations = [] := by
  have hv : verdict = "SUPPORTED" := h
  subst hv
  show (if ("SUPPORTED" : String) = "SUPPORTED" && halls ≠ [] then [] else halls) = []
  cases halls with
  | nil => simp
  | cons a l => simp

theorem getD_false_eq_some_true (o : Option Bool) :
    (o.getD false) = decide (o = some true) := by
  rcases o with _ | b
  · simp
  · cases b <;> simp

theorem countP_risk (s : String) (hs : s ∈ validVerdicts) (claims : List Claim) :
    (claims.filter (fun c => validVerdicts.any (fun s => riskVerdictIs s c))).countP
        (riskVerdictIs s) =
      claims.countP (riskVerdictIs s) := by
  rw [List.countP_filter]
  congr 1
  funext c
  rcases hv : c.verification with _ | v
  · simp [riskVerdictIs, hv]
  · by_cases h : v.verdict = s
    · have hl : riskVerdictIs s c = true := by simp [riskVerdictIs, hv, h]
      have hr : validVerdicts.any (fun s => riskVerdictIs s c) = true := by
        simp only [List.any_eq_true]
        exact ⟨s, hs, hl⟩
      rw [hl, hr]
      rfl
    · have hl : riskVerdictIs s c = false := by simp [riskVerdictIs, hv, h]
      rw [hl]
      simp

/-! ## Claim theorems -/

/-- C2: `calculate_risk` counts only canonical verdicts, computes the dampened
weighted-ratio score r + 0.6·i + 0.3·u over max(1,T), clamps and rounds to 3
decimals, and the returned `overall_risk` label is the pure function
`get_risk_label` of that score alone; in particular [REFUTED, SUPPORTED]
scores 0.20 with label LOW. -/
theorem claim_C2 :
    (∀ (flags : List HFlag) (claims : List Claim),
      (calculateRisk flags claims).hallucination_score = riskScoreSpec claims ∧
      (calculateRisk flags claims).overall_risk =
        getRiskLabel ((calculateRisk flags claims).hallucination_score)) ∧
    (∀ q : ℚ, getRiskLabel q =
      if q ≤ 0.20 then "LOW" else if q ≤ 0.50 then "MEDIUM" else "HIGH") ∧
    (calculateRisk [] [exRefutedClaim, exSupportedClaim]).hallucination_score = 0.20 ∧
    (calculateRisk [] [exRefutedClaim, exSupportedClaim]).overall_risk = "LOW" := by
  refine ⟨?_, fun q => rfl, by rfl, by rfl⟩
  intro flags claims
  constructor
  · simp only [calculateRisk, riskScoreSpec]
    rw [countP_risk "REFUTED" (by decide) claims,
        countP_risk "INSUFFICIENT_EVIDENCE" (by decide) claims,
        countP_risk "UNCERTAIN" (by decide) claims,
        countP_risk "PARTIALLY_SUPPORTED" (by decide) claims]
  · rfl

/-- C3: `score_alignment` follows the first-match decision list of the spec
(SUPPORT at the averaged score, else CONTRADICTION at the contradiction
probability, else WEAK_SUPPORT at the similarity, else NEUTRAL at 0); in
particular similarity 0.9 with entailment 0.6 yields SUPPORT at 0.75. -/
theorem claim_C3 :
    (∀ (t : String) (ev : EvidenceItem) (nli : NLIResult),
      ((scoreAlignment t ev nli).signal, (scoreAlignment t ev nli).score) =
        alignmentSpec ev.score nli.entailment nli.contradiction) ∧
    (scoreAlignment "claim" exC3Item exC3Nli).signal = "SUPPORT" ∧
    (scoreAlignment "claim" exC3Item exC3Nli).score = 0.75 := by
  refine ⟨?_, by decide, by decide⟩
  intro t ev nli
  simp only [scoreAlignment, alignmentSpec, ALIGN_THRESH_SIM_HIGH, ALIGN_THRESH_SIM_MED,
    ALIGN_THRESH_SIM_ULTRA, ALIGN_THRESH_SIM_WEAK, ALIGN_THRESH_ENT_HIGH,
    ALIGN_THRESH_ENT_MED, ALIGN_THRESH_CON_HIGH]
  split_ifs <;> rfl

/-- C7: the eligibility filter admits an item only when subject and predicate
match are both `true`, with an additional non-unknown temporal match required
for TEMPORAL claims; grokipedia items never reach the eligible set; absent
alignment fields fail closed. -/
theorem claim_C7 :
    (∀ (item : EvidenceItem) (claim : Claim),
      isEligible item claim =
        (item.alignment.subject_match = some true &&
         item.alignment.predicate_match = some true &&
         (claim.claim_type ≠ "TEMPORAL" || item.alignment.temporal_match ≠ none))) ∧
    (∀ (claim : Claim) (evd : Evidence) (gl : List EvidenceItem),
      validEvidence claim { evd with grokipedia := gl } = validEvidence claim evd) ∧
    (∀ (item : EvidenceItem) (claim : Claim),
      item.alignment.subject_match = none → isEligible item claim = false) ∧
    (∀ (item : EvidenceItem) (claim : Claim),
      item.alignment.predicate_match = none → isEligible item claim = false) ∧
    (∀ (item : EvidenceItem) (claim : Claim),
      claim.claim_type = "TEMPORAL" → item.alignment.temporal_match = none →
        isEligible item claim = false) := by
  refine ⟨?_, fun claim evd gl => rfl, ?_, ?_, ?_⟩
  · intro item claim
    rcases hs : item.alignment.subject_match with _ | (_ | _) <;>
    rcases hp : item.alignment.predicate_match with _ | (_ | _) <;>
    rcases ht : item.alignment.temporal_match with _ | (_ | _) <;>
    by_cases hc : claim.claim_type = "TEMPORAL" <;>
    simp [isEligible, hs, hp, ht, hc]
  · intro item claim h
    simp [isEligible, h]
  · intro item claim h
    simp [isEligible, h]
  · intro item claim hc ht
    simp [isEligible, hc, ht]

/-- C7 witness: a concrete eligible item, obtained through the
characterization. -/
theorem claim_C7_witness :
    isEligible exPrimaryItem exClaimP = true ∧
    isEligible { exPrimaryItem with alignment := {} } exClaimP = false := by
  constructor
  · rw [claim_C7.1 exPrimaryItem exClaimP]; decide
  · exact claim_C7.2.2.1 { exPrimaryItem with alignment := {} } exClaimP rfl

/-- C1 (amended): base-verdict precedence of `_verify_single_claim`, first
match wins: (a) any CRITICAL flag gives REFUTED at the highest-scoring
critical flag's score; (b) else a contradiction gives REFUTED at
min(0.95, max(0.7, best_refute_score)) when a contradiction evidence entry
exists, else UNCERTAIN at 0.5, with reasoning from the highest-confidence
structured contradiction when one exists; (c) else any NON_CRITICAL flag
gives UNCERTAIN at 0.5, except AUTHORITY_BLEED forces REFUTED at 0.9;
(d) else direct support gives SUPPORTED; (e) else INSUFFICIENT_EVIDENCE,
upgraded to UNCERTAIN at 0.5 when at least two weak supports with average
score at least 0.68 accumulated. -/
theorem claim_C1 :
    ∀ (evidence : Evidence) (valid : List EvidenceItem) (cit : Bool)
      (st : ScanState) (halls : List HFlag),
      (halls.filter (fun h => h.severity = "CRITICAL") ≠ [] →
        (resolveVerdict evidence valid cit st halls).1 = "REFUTED" ∧
        ∃ h ∈ halls.filter (fun h => h.severity = "CRITICAL"),
          (resolveVerdict evidence valid cit st halls).2.1 = h.score ∧
          ∀ h' ∈ halls.filter (fun h => h.severity = "CRITICAL"), h'.score ≤ h.score) ∧
      (halls.filter (fun h => h.severity = "CRITICAL") = [] →
       st.has_contradiction = true →
        (st.refuting_ids ≠ [] →
          (resolveVerdict evidence valid cit st halls).1 = "REFUTED" ∧
          (resolveVerdict evidence valid cit st halls).2.1 =
            min 0.95 (max 0.7 st.best_refute_score)) ∧
        (st.refuting_ids = [] →
          (resolveVerdict evidence valid cit st halls).1 = "UNCERTAIN" ∧
          (resolveVerdict evidence valid cit st halls).2.1 = 0.5) ∧
        (st.authoritative_contradictions ≠ [] →
          ∃ c ∈ st.authoritative_contradictions,
            (resolveVerdict evidence valid cit st halls).2.2 = c.reasoning ∧
            ∀ c' ∈ st.authoritative_contradictions, c'.confidence ≤ c.confidence)) ∧
      (halls.filter (fun h => h.severity = "CRITICAL") = [] →
       st.has_contradiction = false →
       halls.filter (fun h => h.severity = "NON_CRITICAL") ≠ [] →
        if (halls.filter (fun h => h.severity = "NON_CRITICAL")).any
            (fun h => h.hallucination_type = "AUTHORITY_BLEED") then
          (resolveVerdict evidence valid cit st halls).1 = "REFUTED" ∧
          (resolveVerdict evidence valid cit st halls).2.1 = 0.9
        else
          (resolveVerdict evidence valid cit st halls).1 = "UNCERTAIN" ∧
          (resolveVerdict evidence valid cit st halls).2.1 = 0.5) ∧
      (halls.filter (fun h => h.severity = "CRITICAL") = [] →
       st.has_contradiction = false →
       halls.filter (fun h => h.severity = "NON_CRITICAL") = [] →
       st.has_direct_support = true →
        (resolveVerdict evidence valid cit st halls).1 = "SUPPORTED") ∧
      (halls.filter (fun h => h.severity = "CRITICAL") = [] →
       st.has_contradiction = false →
       halls.filter (fun h => h.severity = "NON_CRITICAL") = [] →
       st.has_direct_support = false →
        if 2 ≤ st.weak_support_count ∧
            (0.68 : ℚ) ≤ st.weak_support_total_score / (st.weak_support_count : ℚ) then
          (resolveVerdict evidence valid cit st halls).1 = "UNCERTAIN" ∧
          (resolveVerdict evidence valid cit st halls).2.1 = 0.5
        else
          (resolveVerdict evidence valid cit st halls).1 = "INSUFFICIENT_EVIDENCE" ∧
          (resolveVerdict evidence valid cit st halls).2.1 = 0) := by
  intro evidence valid cit st halls
  refine ⟨?_, ?_, ?_, ?_, ?_⟩
  · intro hcrit
    simp only [resolveVerdict]
    rw [if_pos hcrit]
    exact ⟨rfl,
      pyMaxBy HFlag.score default (halls.filter (fun h => h.severity = "CRITICAL")),
      pyMaxBy_mem _ _ _ hcrit, rfl, pyMaxBy_maximal _ _ _⟩
  · intro hcrit hcontra
    simp only [resolveVerdict]
    rw [if_neg (not_ne_iff.mpr hcrit), if_pos hcontra]
    refine ⟨?_, ?_, ?_⟩
    · intro hr
      rw [if_pos hr]
      exact ⟨rfl, rfl⟩
    · intro hr
      rw [if_neg (not_ne_iff.mpr hr)]
      exact ⟨rfl, rfl⟩
    · intro ha
      rw [if_pos ha]
      exact ⟨pyMaxBy Contradiction.confidence default st.authoritative_contradictions,
        pyMaxBy_mem _ _ _ ha, rfl, pyMaxBy_maximal _ _ _⟩
  · intro hcrit hcontra hnc
    simp only [resolveVerdict]
    rw [if_neg (not_ne_iff.mpr hcrit),
        if_neg (show ¬(st.has_contradiction = true) by simp [hcontra]),
        if_pos hnc]
    split_ifs with hb
    · exact ⟨rfl, rfl⟩
    · exact ⟨rfl, rfl⟩
  · intro hcrit hcontra hnc hsupp
    simp only [resolveVerdict]
    rw [if_neg (not_ne_iff.mpr hcrit),
        if_neg (show ¬(st.has_contradiction = true) by simp [hcontra]),
        if_neg (not_ne_iff.mpr hnc), if_pos hsupp]
  · intro hcrit hcontra hnc hsupp
    simp only [resolveVerdict]
    rw [if_neg (not_ne_iff.mpr hcrit),
        if_neg (show ¬(st.has_contradiction = true) by simp [hcontra]),
        if_neg (not_ne_iff.mpr hnc),
        if_neg (show ¬(st.has_direct_support = true) by simp [hsupp])]
    by_cases h2 : 2 ≤ st.weak_support_count
    · by_cases h3 :
          (0.68 : ℚ) ≤ st.weak_support_total_score / (st.weak_support_count : ℚ)
      · rw [if_pos ⟨h2, h3⟩,
            if_pos (show (st.weak_support_count ≥ 2 && ¬ st.has_contradiction) = true by
              simp [h2, hcontra]),
            if_pos (show st.weak_support_total_score / (st.weak_support_count : ℚ) ≥ 0.68
              from h3)]
        exact ⟨rfl, rfl⟩
      · rw [if_neg (show ¬(2 ≤ st.weak_support_count ∧
              (0.68 : ℚ) ≤ st.weak_support_total_score / (st.weak_support_count : ℚ)) by
              simp [h3]),
            if_pos (show (st.weak_support_count ≥ 2 && ¬ st.has_contradiction) = true by
              simp [h2, hcontra]),
            if_neg (show ¬(st.weak_support_total_score / (st.weak_support_count : ℚ) ≥ 0.68)
              from h3)]
        exact ⟨rfl, rfl⟩
    · rw [if_neg (show ¬(2 ≤ st.weak_support_count ∧
            (0.68 : ℚ) ≤ st.weak_support_total_score / (st.weak_support_count : ℚ)) by
            simp [h2]),
          if_neg (show ¬((st.weak_support_count ≥ 2 && ¬ st.has_contradiction) = true) by
            simp [h2])]
      exact ⟨rfl, rfl⟩

/-- C1 counterexample to the claim as stated: with no hallucination flags, no
contradiction and no direct support, but two accumulated weak supports
averaging 0.7, the base verdict is UNCERTAIN, not INSUFFICIENT_EVIDENCE. -/
theorem claim_C1_counterexample :
    ([] : List HFlag).filter (fun h => h.severity = "CRITICAL") = [] ∧
    ([] : List HFlag).filter (fun h => h.severity = "NON_CRITICAL") = [] ∧
    exWeakState.has_contradiction = false ∧
    exWeakState.has_direct_support = false ∧
    (resolveVerdict {} [] false exWeakState []).1 = "UNCERTAIN" ∧
    ("UNCERTAIN" : String) ≠ "INSUFFICIENT_EVIDENCE" :=
  ⟨rfl, rfl, rfl, rfl, rfl, by decide⟩

/-- C1 witness: precedence clause (b) applied to a concrete contradiction
state. -/
theorem claim_C1_witness :
    (resolveVerdict {} [] false exContraState []).1 = "REFUTED" ∧
    (resolveVerdict {} [] false exContraState []).2.1 =
      min 0.95 (max 0.7 exContraState.best_refute_score) :=
  ((claim_C1 {} [] false exContraState []).2.1 rfl rfl).1 (by decide)

/-- C4: on every claim processed by `_verify_single_claim`, a final verdict of
SUPPORTED (after the facet-based post-adjustment) implies an empty
hallucination list — the normalization step clears residual flags. -/
theorem claim_C4 :
    ∀ (collab : Collab) (config : Config) (claim : Claim),
      (verifySingleClaim collab config claim).finalVerdict = "SUPPORTED" →
      (verifySingleClaim collab config claim).hallucinations = [] := by
  intro collab config claim h
  exact finishClaim_supported_clears _ _ _ _ _ _ _ _ _ _ h

/-- C4 witness: a concrete claim verified SUPPORTED by a primary document
comes out with an empty hallucination list. -/
theorem claim_C4_witness :
    (verifySingleClaim exSupportCollab {} exClaimP).finalVerdict = "SUPPORTED" ∧
    (verifySingleClaim exSupportCollab {} exClaimP).hallucinations = [] :=
  ⟨rfl, claim_C4 exSupportCollab {} exClaimP rfl⟩

/-- C5 (amended): a scanned PRIMARY_DOCUMENT item locks the best support
score at 0.95 without stopping the scan, and no WIKIDATA item can outweigh
it — but a WIKIPEDIA item whose SUPPORT alignment score exceeds the locked
0.95 does replace it as the winning evidence; on a SUPPORTED verdict the
confidence is min(0.99, best_support_score) capped by the winning item's
source-type ceiling (0.95 PRIMARY_DOCUMENT, 0.85 WIKIDATA/STRUCTURED,
uncapped textual). -/
theorem claim_C5 :
    (∀ (collab : Collab) (config : Config) (claim : Claim) (cit : Bool)
       (af : List String) (st : ScanState) (ev : EvidenceItem),
      ev.source = "PRIMARY_DOCUMENT" →
      scanStep collab config claim cit af st ev =
        { st with supporting_ids := st.supporting_ids ++ [ev.evidence_id],
                  has_direct_support := true,
                  best_evidence_item := some ev,
                  best_support_score := 0.95 }) ∧
    (∀ (collab : Collab) (config : Config) (claim : Claim) (cit : Bool)
       (af : List String) (st : ScanState) (ev : EvidenceItem),
      ev.source = "WIKIDATA" →
      (0.95 : ℚ) ≤ st.best_support_score →
      (scanStep collab config claim cit af st ev).best_support_score =
        st.best_support_score ∧
      (scanStep collab config claim cit af st ev).best_evidence_item =
        st.best_evidence_item) ∧
    (∀ (evidence : Evidence) (valid : List EvidenceItem) (cit : Bool)
       (st : ScanState) (halls : List HFlag),
      halls.filter (fun h => h.severity = "CRITICAL") = [] →
      halls.filter (fun h => h.severity = "NON_CRITICAL") = [] →
      st.has_contradiction = false →
      st.has_direct_support = true →
      (resolveVerdict evidence valid cit st halls).1 = "SUPPORTED" ∧
      (resolveVerdict evidence valid cit st halls).2.1 =
        (if (st.best_evidence_item.getD default).source = "PRIMARY_DOCUMENT" then
          min (min 0.99 st.best_support_score) 0.95
        else if (st.best_evidence_item.getD default).source = "WIKIDATA" ||
            (st.best_evidence_item.getD default).modality = "STRUCTURED" then
          min (min 0.99 st.best_support_score) 0.85
        else min 0.99 st.best_support_score)) := by
  refine ⟨?_, ?_, ?_⟩
  · intro collab config claim cit af st ev h
    simp only [scanStep]
    rw [if_pos h]
  · intro collab config claim cit af st ev h hlock
    have hns : ¬(ev.source = "PRIMARY_DOCUMENT") := by simp [h]
    have hcap1 : ¬(CONFIDENCE_CAP_STRUCTURED > st.best_support_score) := by
      simp only [CONFIDENCE_CAP_STRUCTURED, not_lt]
      calc (0.85 : ℚ) ≤ 0.95 := by norm_num
        _ ≤ st.best_support_score := hlock
    have hcap2 : ¬((0.75 : ℚ) > st.best_support_score) := by
      simp only [not_lt]
      calc (0.75 : ℚ) ≤ 0.95 := by norm_num
        _ ≤ st.best_support_score := hlock
    simp only [scanStep]
    rw [if_neg hns, if_pos h]
    split_ifs <;> simp_all
  · intro evidence valid cit st halls hcrit hnc hcontra hsupp
    simp only [resolveVerdict]
    rw [if_neg (not_ne_iff.mpr hcrit),
        if_neg (show ¬(st.has_contradiction = true) by simp [hcontra]),
        if_neg (not_ne_iff.mpr hnc), if_pos hsupp]
    refine ⟨rfl, ?_⟩
    split_ifs <;> rfl

/-- C5 counterexample to the claim as stated: after the primary-document lock,
a later WIKIPEDIA item with alignment score 0.97 replaces the primary item as
the winning evidence and the SUPPORTED confidence is 0.97, above the primary
cap of 0.95 — a lower-tier item did outweigh the lock. -/
theorem claim_C5_counterexample :
    isEligible exPrimaryItem exClaimPW = true ∧
    exPrimaryItem ∈ validEvidence exClaimPW exClaimPW.evidence ∧
    exScanStatePW.best_evidence_item = some exWikipediaStrong ∧
    (verifySingleClaim exSupportCollab {} exClaimPW).finalVerdict = "SUPPORTED" ∧
    (verifySingleClaim exSupportCollab {} exClaimPW).finalConfidence = 0.97 ∧
    ((0.95 : ℚ) < 0.97) :=
  ⟨rfl, by decide, rfl, rfl, rfl, by norm_num⟩

/-- C5 witness: the primary-document lock applied to a concrete scan step. -/
theorem claim_C5_witness :
    scanStep exSupportCollab {} exClaimP false [] (initialScanState []) exPrimaryItem =
      { initialScanState [] with
          supporting_ids := (initialScanState []).supporting_ids ++ [exPrimaryItem.evidence_id],
          has_direct_support := true,
          best_evidence_item := some exPrimaryItem,
          best_support_score := 0.95 } :=
  claim_C5.1 exSupportCollab {} exClaimP false [] (initialScanState []) exPrimaryItem rfl

/-- C6 (amended): the batch sanity rule fires when the output document has
more than 3 claims and exactly 0 claims with verdict SUPPORTED or
PARTIALLY_SUPPORTED; it then downgrades every INSUFFICIENT_EVIDENCE verdict
to UNCERTAIN (never to SUPPORTED) and changes no other verdict; otherwise the
claims pass through unchanged. -/
theorem claim_C6 :
    ∀ (cs : List Claim),
      (cs.length > 3 →
        cs.countP (fun c =>
          c.finalVerdict = "SUPPORTED" || c.finalVerdict = "PARTIALLY_SUPPORTED") = 0 →
        sanityPass cs = cs.map downgradeInsufficient) ∧
      (¬(cs.length > 3 ∧
          cs.countP (fun c =>
            c.finalVerdict = "SUPPORTED" || c.finalVerdict = "PARTIALLY_SUPPORTED") = 0) →
        sanityPass cs = cs) ∧
      (∀ c : Claim, (downgradeInsufficient c).finalVerdict =
        (if c.finalVerdict = "INSUFFICIENT_EVIDENCE" then "UNCERTAIN"
         else c.finalVerdict)) := by
  intro cs
  refine ⟨?_, ?_, ?_⟩
  · intro hlen hcount
    simp only [sanityPass, countVerified]
    rw [if_pos (by simp [hlen, hcount])]
  · intro hcond
    simp only [sanityPass, countVerified]
    rw [if_neg (by simpa [not_and] using fun h1 h2 => hcond ⟨h1, h2⟩)]
  · intro c
    rcases hv : c.verification with _ | v
    · simp [downgradeInsufficient, Claim.finalVerdict, hv]
    · by_cases h : v.verdict = "INSUFFICIENT_EVIDENCE"
      · simp [downgradeInsufficient, Claim.finalVerdict, hv, h]
      · simp [downgradeInsufficient, Claim.finalVerdict, hv, h]

/-- C6 counterexample to the claim as stated: four claims, zero SUPPORTED,
one PARTIALLY_SUPPORTED and three INSUFFICIENT_EVIDENCE — the rule as claimed
would downgrade them, but the code leaves the batch untouched because
PARTIALLY_SUPPORTED also counts as verified. -/
theorem claim_C6_counterexample :
    exBatchPartial.length > 3 ∧
    exBatchPartial.countP (fun c => c.finalVerdict = "SUPPORTED") = 0 ∧
    exInsufficientClaim ∈ exBatchPartial ∧
    exInsufficientClaim.finalVerdict = "INSUFFICIENT_EVIDENCE" ∧
    sanityPass exBatchPartial = exBatchPartial := by
  refine ⟨by decide, by decide, by decide, rfl, rfl⟩

/-- C6 witness: on four INSUFFICIENT_EVIDENCE claims the rule fires and every
claim is downgraded. -/
theorem claim_C6_witness :
    sanityPass exBatchAllInsufficient = exBatchAllInsufficient.map downgradeInsufficient ∧
    (downgradeInsufficient exInsufficientClaim).finalVerdict = "UNCERTAIN" := by
  constructor
  · exact (claim_C6 exBatchAllInsufficient).1 (by decide) (by decide)
  · rw [(claim_C6 []).2.2 exInsufficientClaim]
    rfl

/-- C8 (amended): flags enriched by the detector carry severity CRITICAL
exactly when their type is in the static CRITICAL membership table and
NON_CRITICAL otherwise; the attributor's textual-contradiction flag, however,
is hardcoded CRITICAL at its construction site even though its fixed type
TEXTUAL_CONTRADICTION is not in that table — its severity is set ad hoc, not
resolved by the table. -/
theorem claim_C8 :
    (∀ h : HFlag,
      ((enrich h).severity = "CRITICAL" ↔
        h.hallucination_type ∈ CRITICAL_HALLUCINATIONS) ∧
      (h.hallucination_type ∉ CRITICAL_HALLUCINATIONS →
        (enrich h).severity = "NON_CRITICAL")) ∧
    (∀ (ar : AlignmentResult) (ev : EvidenceItem) (f : HFlag),
      attributeFlag ar ev = some f →
      f.severity = "CRITICAL" ∧ f.hallucination_type = "TEXTUAL_CONTRADICTION") ∧
    "TEXTUAL_CONTRADICTION" ∉ CRITICAL_HALLUCINATIONS := by
  refine ⟨?_, ?_, by decide⟩
  · intro h
    by_cases hm : h.hallucination_type ∈ CRITICAL_HALLUCINATIONS
    · exact ⟨by simp [enrich, hm], fun hf => absurd hm hf⟩
    · exact ⟨by simp [enrich, hm], fun _ => by simp [enrich, hm]⟩
  · intro ar ev f hf
    by_cases hs : ar.signal = "CONTRADICTION"
    · simp only [attributeFlag, hs, if_pos, reduceIte] at hf
      rw [Option.some.injEq] at hf
      subst hf
      exact ⟨rfl, rfl⟩
    · rw [attributeFlag, if_neg hs] at hf
      cases hf

/-- C8 counterexample to the claim as stated: on a claim refuted by a textual
contradiction, the attached flag has severity CRITICAL although its type
TEXTUAL_CONTRADICTION is not in the CRITICAL membership table, so severity is
not resolved by the static table for every attached flag. -/
theorem claim_C8_counterexample :
    (verifySingleClaim exContradictCollab {} exClaimW).hallucinations = [exContraFlag] ∧
    exContraFlag.severity = "CRITICAL" ∧
    exContraFlag.hallucination_type ∉ CRITICAL_HALLUCINATIONS :=
  ⟨rfl, rfl, by decide⟩

/-- C8 witness: the attributor fired on a concrete contradiction signal. -/
theorem claim_C8_witness :
    exContraFlag.severity = "CRITICAL" ∧
    exContraFlag.hallucination_type = "TEXTUAL_CONTRADICTION" :=
  claim_C8.2.1
    (scoreAlignment exClaimW.claim_text exWikipediaWeak
      { entailment := 0.05, contradiction := 0.8, neutral := 0.15 })
    exWikipediaWeak exContraFlag rfl

/-- C9: a per-claim verification exception is caught by `verify_claims`; the
claim's verification becomes INSUFFICIENT_EVIDENCE with confidence 0.0 and
reasoning `Verification error: <message>`, and the batch loop continues with
the remaining claims instead of aborting. -/
theorem claim_C9 :
    ∀ (verify : Claim → Except String Claim) (cs : List Claim) (c : Claim) (e : String),
      (verify c = .error e →
        processOne verify c =
          { c with verification := (some
              { verdict := "INSUFFICIENT_EVIDENCE",
                confidence := 0,
                reasoning := "Verification error: " ++ e }) }) ∧
      (processClaims verify cs).length = cs.length ∧
      (∀ (c0 : Claim) (rest : List Claim),
        processClaims verify (c0 :: rest) = processOne verify c0 :: processClaims verify rest) := by
  intro verify cs c e
  refine ⟨?_, processClaims_length verify cs, fun c0 rest => rfl⟩
  intro h
  simp [processOne, h, errorVerification]

/-- C9 witness: the error conversion applied to a concrete always-raising
verifier. -/
theorem claim_C9_witness :
    processOne exFailVerify exClaimP =
      { exClaimP with verification := (some
          { verdict := "INSUFFICIENT_EVIDENCE",
            confidence := 0,
            reasoning := "Verification error: " ++ "boom" }) } :=
  (claim_C9 exFailVerify [] exClaimP "boom").1 rfl

/-- C10: `verify_claims` returns exactly one output claim per input claim, in
input order — position i of the output is the processed claim of position i
of the input, possibly rewritten by the sanity rule — and the sanity
downgrade rewrites only the verdict and reasoning of a verification, leaving
the claim's identity, evidence, hallucinations and confidence untouched. -/
theorem claim_C10 :
    ∀ (verify : Claim → Except String Claim) (cs : List Claim),
      (verifyClaims verify cs).length = cs.length ∧
      (∀ (i : ℕ) (c : Claim), cs[i]? = some c →
        (verifyClaims verify cs)[i]? = some
          (if (processClaims verify cs).length > 3 ∧
              countVerified (processClaims verify cs) = 0 then
            downgradeInsufficient (processOne verify c)
          else processOne verify c)) ∧
      (∀ c : Claim,
        (downgradeInsufficient c).claim_id = c.claim_id ∧
        (downgradeInsufficient c).evidence = c.evidence ∧
        (downgradeInsufficient c).hallucinations = c.hallucinations ∧
        (downgradeInsufficient c).verification.map Verification.confidence =
          c.verification.map Verification.confidence) := by
  intro verify cs
  refine ⟨?_, ?_, ?_⟩
  · rw [verifyClaims, sanityPass]
    split_ifs
    · rw [List.length_map]
      exact processClaims_length verify cs
    · exact processClaims_length verify cs
  · intro i c hi
    by_cases hc : (processClaims verify cs).length > 3 ∧
        countVerified (processClaims verify cs) = 0
    · rw [if_pos hc, verifyClaims, sanityPass,
        if_pos (show ((processClaims verify cs).length > 3 &&
          countVerified (processClaims verify cs) = 0) = true by simp [hc.1, hc.2])]
      rw [List.getElem?_map, processClaims_getElem, hi]
      rfl
    · rw [if_neg hc, verifyClaims, sanityPass,
        if_neg (show ¬((processClaims verify cs).length > 3 &&
          countVerified (processClaims verify cs) = 0) = true by
            simpa [not_and] using fun h1 h2 => hc ⟨h1, h2⟩)]
      rw [processClaims_getElem, hi]
      rfl
  · intro c
    rcases hv : c.verification with _ | v
    · simp [downgradeInsufficient, hv]
    · by_cases h : v.verdict = "INSUFFICIENT_EVIDENCE"
      · simp [downgradeInsufficient, hv, h]
      · simp [downgradeInsufficient, hv, h]

/-- C10 witness: the positional characterization applied at index 0 of a
concrete batch whose verifier raises. -/
theorem claim_C10_witness :
    (verifyClaims exFailVerify [exClaimP])[0]? = some
      (if (processClaims exFailVerify [exClaimP]).length > 3 ∧
          countVerified (processClaims exFailVerify [exClaimP]) = 0 then
        downgradeInsufficient (processOne exFailVerify exClaimP)
      else processOne exFailVerify exClaimP) :=
  (claim_C10 exFailVerify [exClaimP]).2.1 0 exClaimP rfl

end RatEval

end EpistemicAudit
